import Mathlib

/-!
Verification development for the esb-cli e2e function fixtures.

The Python fixtures under `fixtures/esb-e2e-docker` and the trace bridge under
`internal/infra/build/assets/python` are shallowly embedded here:
- Python's JSON-compatible values become the inductive `PyVal`;
- `json.dumps` / `json.loads` (Python stdlib collaborators of the fixtures)
  are modelled by the executable `dumps` / `loads` below.  The model covers
  `null`, booleans, integers, strings over the basic multilingual plane, and
  arrays/objects with Python's default `", "` / `": "` separators and
  `ensure_ascii` escaping; floats and non-BMP code points are outside the model;
- each Lambda handler becomes a function over `PyVal` events, with AWS
  collaborators (DynamoDB, S3, Lambda invoke, CloudWatch Logs) injected through
  an `AwsWorld` record and observed through an explicit `Effect` trace, and
  Python exceptions modelled by `Except PyErr`.
-/

namespace ESB

/-- JSON-compatible Python values as handled by the fixtures: `None`, `bool`,
`int`, `str`, `list` and (insertion-ordered) `dict` with string keys. -/
inductive PyVal where
  | none
  | bool (b : Bool)
  | int (n : Int)
  | str (s : String)
  | list (xs : List PyVal)
  | dict (fs : List (String × PyVal))
deriving Repr

mutual

/-- Decidable equality for `PyVal` (the nested lists need a manual definition). -/
def PyVal.beq : PyVal → PyVal → Bool
  | .none, .none => true
  | .bool a, .bool b => a == b
  | .int a, .int b => a == b
  | .str a, .str b => a == b
  | .list a, .list b => PyVal.beqList a b
  | .dict a, .dict b => PyVal.beqFields a b
  | _, _ => false

def PyVal.beqList : List PyVal → List PyVal → Bool
  | [], [] => true
  | a :: as', b :: bs => PyVal.beq a b && PyVal.beqList as' bs
  | _, _ => false

def PyVal.beqFields : List (String × PyVal) → List (String × PyVal) → Bool
  | [], [] => true
  | (ka, va) :: as', (kb, vb) :: bs =>
      ka == kb && PyVal.beq va vb && PyVal.beqFields as' bs
  | _, _ => false

end

mutual

theorem PyVal.beq_iff : ∀ a b : PyVal, PyVal.beq a b = true ↔ a = b
  | .none, b => by cases b <;> simp [PyVal.beq]
  | .bool a, b => by cases b <;> simp [PyVal.beq]
  | .int a, b => by cases b <;> simp [PyVal.beq]
  | .str a, b => by cases b <;> simp [PyVal.beq]
  | .list a, b => by
      cases b <;> simp [PyVal.beq]
      exact PyVal.beqList_iff a _
  | .dict a, b => by
      cases b <;> simp [PyVal.beq]
      exact PyVal.beqFields_iff a _

theorem PyVal.beqList_iff : ∀ a b : List PyVal, PyVal.beqList a b = true ↔ a = b
  | [], b => by cases b <;> simp [PyVal.beqList]
  | a :: as', b => by
      cases b with
      | nil => simp [PyVal.beqList]
      | cons b bs =>
          simp [PyVal.beqList, PyVal.beq_iff a b, PyVal.beqList_iff as' bs]

theorem PyVal.beqFields_iff :
    ∀ a b : List (String × PyVal), PyVal.beqFields a b = true ↔ a = b
  | [], b => by cases b <;> simp [PyVal.beqFields]
  | (ka, va) :: as', b => by
      cases b with
      | nil => simp [PyVal.beqFields]
      | cons kb bs =>
          obtain ⟨kb, vb⟩ := kb
          simp [PyVal.beqFields, PyVal.beq_iff va vb, PyVal.beqFields_iff as' bs,
            and_assoc]

end

instance : DecidableEq PyVal := fun a b =>
  decidable_of_iff (PyVal.beq a b = true) (PyVal.beq_iff a b)

/-- Python truthiness for the values above (`bool(x)`). -/
def truthy : PyVal → Bool
  | .none => false
  | .bool b => b
  | .int n => n != 0
  | .str s => s != ""
  | .list xs => !xs.isEmpty
  | .dict fs => !fs.isEmpty

/-- First-match association-list lookup; models Python dict indexing
(`d[k]` / `k in d`) for dicts represented as insertion-ordered field lists. -/
def lookup? (fs : List (String × PyVal)) (k : String) : Option PyVal :=
  match fs with
  | [] => Option.none
  | (k', v) :: rest => if k' = k then some v else lookup? rest k

/-- `d.get(k, default)` on a dict value; other values have no `.get`. -/
def PyVal.get (v : PyVal) (k : String) (d : PyVal) : PyVal :=
  match v with
  | .dict fs => (lookup? fs k).getD d
  | _ => d

/-- Is the value a structured mapping (`isinstance(x, dict)`)? -/
def PyVal.isObj : PyVal → Bool
  | .dict _ => true
  | _ => false

/-- Is the value a string (`isinstance(x, str)`)? -/
def PyVal.isStr : PyVal → Bool
  | .str _ => true
  | _ => false

/-! ### `json.dumps` -/

/-- Accumulator worker for decimal digits; the fuel makes the recursion
structural so that terms reduce inside the kernel. -/
def natDigitsGo : Nat → Nat → List Char → List Char
  | 0, _, acc => acc
  | fuel + 1, n, acc =>
    if n < 10 then Char.ofNat (48 + n) :: acc
    else natDigitsGo fuel (n / 10) (Char.ofNat (48 + n % 10) :: acc)

/-- Decimal digits of a natural number, most significant first. -/
def natDigits (n : Nat) : List Char := natDigitsGo (n + 1) n []

/-- Decimal rendering of an integer, as Python prints it. -/
def intStr (n : Int) : String :=
  if n < 0 then String.mk ('-' :: natDigits n.natAbs) else String.mk (natDigits n.natAbs)

/-- One lowercase hexadecimal digit. -/
def hexDigit (n : Nat) : Char :=
  if n < 10 then Char.ofNat (48 + n) else Char.ofNat (87 + n)

/-- Four-digit lowercase hex, as in Python's `\uXXXX` escapes. -/
def hex4 (n : Nat) : List Char :=
  [hexDigit (n / 4096 % 16), hexDigit (n / 256 % 16), hexDigit (n / 16 % 16), hexDigit (n % 16)]

/-- `json.dumps` escaping of one string character (`ensure_ascii=True`;
non-BMP code points, which Python encodes as surrogate pairs, are outside
the model). -/
def escapeChar (c : Char) : List Char :=
  if c = '"' then ['\\', '"']
  else if c = '\\' then ['\\', '\\']
  else if c = '\n' then ['\\', 'n']
  else if c = '\t' then ['\\', 't']
  else if c = '\r' then ['\\', 'r']
  else if c = Char.ofNat 8 then ['\\', 'b']
  else if c = Char.ofNat 12 then ['\\', 'f']
  else if c.toNat < 32 || 126 < c.toNat then '\\' :: 'u' :: hex4 c.toNat
  else [c]

/-- The characters of a dumped string literal (quotes included). -/
def dumpStr (s : String) : List Char :=
  '"' :: (s.data.map escapeChar).flatten ++ ['"']

mutual

/-- The characters `json.dumps` emits for a value (default separators:
`", "` between items, `": "` after keys). -/
def dumpVal : PyVal → List Char
  | .none => "null".data
  | .bool true => "true".data
  | .bool false => "false".data
  | .int n => (intStr n).data
  | .str s => dumpStr s
  | .list xs => '[' :: dumpArr xs
  | .dict fs => '{' :: dumpObj fs

/-- Elements of an array after the opening bracket. -/
def dumpArr : List PyVal → List Char
  | [] => [']']
  | v :: vs => dumpVal v ++ dumpArrTail vs

/-- Remaining elements of an array, each preceded by `", "`. -/
def dumpArrTail : List PyVal → List Char
  | [] => [']']
  | v :: vs => ',' :: ' ' :: (dumpVal v ++ dumpArrTail vs)

/-- Members of an object after the opening brace. -/
def dumpObj : List (String × PyVal) → List Char
  | [] => ['}']
  | (k, v) :: fs => dumpStr k ++ ':' :: ' ' :: (dumpVal v ++ dumpObjTail fs)

/-- Remaining members of an object, each preceded by `", "`. -/
def dumpObjTail : List (String × PyVal) → List Char
  | [] => ['}']
  | (k, v) :: fs => ',' :: ' ' :: (dumpStr k ++ ':' :: ' ' :: (dumpVal v ++ dumpObjTail fs))

end

/-- `json.dumps(v)` with Python's default options. -/
def dumps (v : PyVal) : String := String.mk (dumpVal v)

example : dumps (.dict [("a", .int 1)]) = "\x7b\"a\": 1\x7d" := by decide
example : dumps (.dict [("success", .bool true), ("child", .none)])
    = "\x7b\"success\": true, \"child\": null\x7d" := by decide
example : dumps (.list [.int (-12), .str "x y"]) = "[-12, \"x y\"]" := by decide

/-! ### `json.loads`

A recursive-descent parser over the character list, with explicit fuel.
It accepts what `json.loads` accepts on the modelled fragment (no floats;
on inputs with a float literal or a redundant leading zero the model
rejects where Python would parse — no fixture input in the claims has
either). -/

/-- JSON whitespace (`' '`, `'\t'`, `'\n'`, `'\r'`). -/
def isWsChar (c : Char) : Bool := c = ' ' || c = '\t' || c = '\n' || c = '\r'

/-- Drop leading JSON whitespace. -/
def skipWs : List Char → List Char
  | [] => []
  | c :: cs => if isWsChar c then skipWs cs else c :: cs

/-- Numeric value of a decimal digit character. -/
def digitVal (c : Char) : Nat := c.toNat - 48

/-- Greedily consume decimal digits, accumulating their value. -/
def parseDigits (acc : Nat) : List Char → Nat × List Char
  | [] => (acc, [])
  | c :: cs => if c.isDigit then parseDigits (acc * 10 + digitVal c) cs else (acc, c :: cs)

/-- Numeric value of a hexadecimal digit character, if it is one. -/
def hexVal (c : Char) : Option Nat :=
  if '0' ≤ c ∧ c ≤ '9' then some (c.toNat - 48)
  else if 'a' ≤ c ∧ c ≤ 'f' then some (c.toNat - 87)
  else if 'A' ≤ c ∧ c ≤ 'F' then some (c.toNat - 55)
  else Option.none

/-- Parse the body of a string literal (after the opening quote), handling
JSON escape sequences; raw control characters are rejected as in strict
`json.loads`. -/
def parseStringBody (acc : List Char) : List Char → Option (String × List Char)
  | [] => Option.none
  | c :: cs =>
    if c = '"' then some (String.mk acc.reverse, cs)
    else if c = '\\' then
      match cs with
      | [] => Option.none
      | e :: cs' =>
        if e = '"' then parseStringBody ('"' :: acc) cs'
        else if e = '\\' then parseStringBody ('\\' :: acc) cs'
        else if e = '/' then parseStringBody ('/' :: acc) cs'
        else if e = 'b' then parseStringBody (Char.ofNat 8 :: acc) cs'
        else if e = 'f' then parseStringBody (Char.ofNat 12 :: acc) cs'
        else if e = 'n' then parseStringBody ('\n' :: acc) cs'
        else if e = 'r' then parseStringBody ('\r' :: acc) cs'
        else if e = 't' then parseStringBody ('\t' :: acc) cs'
        else if e = 'u' then
          match cs' with
          | h1 :: h2 :: h3 :: h4 :: cs'' =>
            match hexVal h1, hexVal h2, hexVal h3, hexVal h4 with
            | some a, some b, some c3, some d =>
                parseStringBody (Char.ofNat (a * 4096 + b * 256 + c3 * 16 + d) :: acc) cs''
            | _, _, _, _ => Option.none
          | _ => Option.none
        else Option.none
    else if 32 ≤ c.toNat then parseStringBody (c :: acc) cs
    else Option.none

/-- Strip an expected literal prefix (used for `null`/`true`/`false`). -/
def dropLit : List Char → List Char → Option (List Char)
  | [], cs => some cs
  | p :: ps, c :: cs => if c = p then dropLit ps cs else Option.none
  | _ :: _, [] => Option.none

mutual

/-- Parse one JSON value.  The caller must have skipped leading whitespace. -/
def parseVal : Nat → List Char → Option (PyVal × List Char)
  | 0, _ => Option.none
  | fuel + 1, cs =>
    match cs with
    | [] => Option.none
    | c :: cs' =>
      if c = '"' then (parseStringBody [] cs').map (fun p => (.str p.1, p.2))
      else if c = '[' then
        match parseArrItems fuel (skipWs cs') with
        | some p => some (.list p.1, p.2)
        | Option.none => Option.none
      else if c = '{' then
        match parseObjItems fuel (skipWs cs') with
        | some p => some (.dict p.1, p.2)
        | Option.none => Option.none
      else if c = '-' then
        match cs' with
        | [] => Option.none
        | d :: cs'' =>
          if d.isDigit then
            let p := parseDigits (digitVal d) cs''
            some (.int (-(p.1 : Int)), p.2)
          else Option.none
      else if c.isDigit then
        let p := parseDigits (digitVal c) cs'
        some (.int (p.1 : Int), p.2)
      else if c = 'n' then (dropLit "ull".data cs').map (fun r => (.none, r))
      else if c = 't' then (dropLit "rue".data cs').map (fun r => (.bool true, r))
      else if c = 'f' then (dropLit "alse".data cs').map (fun r => (.bool false, r))
      else Option.none

/-- Parse the items of an array after `[` (whitespace already skipped). -/
def parseArrItems : Nat → List Char → Option (List PyVal × List Char)
  | 0, _ => Option.none
  | fuel + 1, cs =>
    match cs with
    | [] => Option.none
    | c :: cs' =>
      if c = ']' then some ([], cs')
      else
        match parseVal fuel (c :: cs') with
        | some (v, cs₂) =>
          match parseArrRest fuel (skipWs cs₂) with
          | some (vs, cs₃) => some (v :: vs, cs₃)
          | Option.none => Option.none
        | Option.none => Option.none

/-- Parse `, item ... ]` continuations of an array. -/
def parseArrRest : Nat → List Char → Option (List PyVal × List Char)
  | 0, _ => Option.none
  | fuel + 1, cs =>
    match cs with
    | [] => Option.none
    | c :: cs' =>
      if c = ']' then some ([], cs')
      else if c = ',' then
        match parseVal fuel (skipWs cs') with
        | some (v, cs₂) =>
          match parseArrRest fuel (skipWs cs₂) with
          | some (vs, cs₃) => some (v :: vs, cs₃)
          | Option.none => Option.none
        | Option.none => Option.none
      else Option.none

/-- Parse the members of an object after `{` (whitespace already skipped). -/
def parseObjItems : Nat → List Char → Option (List (String × PyVal) × List Char)
  | 0, _ => Option.none
  | fuel + 1, cs =>
    match cs with
    | [] => Option.none
    | c :: cs' =>
      if c = '}' then some ([], cs')
      else if c = '"' then
        match parseStringBody [] cs' with
        | some (k, cs₂) =>
          match skipWs cs₂ with
          | ':' :: cs₃ =>
            match parseVal fuel (skipWs cs₃) with
            | some (v, cs₄) =>
              match parseObjRest fuel (skipWs cs₄) with
              | some (fs, cs₅) => some ((k, v) :: fs, cs₅)
              | Option.none => Option.none
            | Option.none => Option.none
          | _ => Option.none
        | Option.none => Option.none
      else Option.none

/-- Parse `, "key": value ... }` continuations of an object. -/
def parseObjRest : Nat → List Char → Option (List (String × PyVal) × List Char)
  | 0, _ => Option.none
  | fuel + 1, cs =>
    match cs with
    | [] => Option.none
    | c :: cs' =>
      if c = '}' then some ([], cs')
      else if c = ',' then
        match skipWs cs' with
        | '"' :: cs₂ =>
          match parseStringBody [] cs₂ with
          | some (k, cs₃) =>
            match skipWs cs₃ with
            | ':' :: cs₄ =>
              match parseVal fuel (skipWs cs₄) with
              | some (v, cs₅) =>
                match parseObjRest fuel (skipWs cs₅) with
                | some (fs, cs₆) => some ((k, v) :: fs, cs₆)
                | Option.none => Option.none
              | Option.none => Option.none
            | _ => Option.none
          | Option.none => Option.none
        | _ => Option.none
      else Option.none

end

/-- `json.loads(s)`: parse one value surrounded by optional whitespace, and
fail (`None`, modelling the raised `JSONDecodeError`) on any malformed or
trailing input.  `2 * length + 1` fuel is enough for any input (each fuel
unit spans at least half a character of consumed input).  An object literal
with duplicate keys keeps its members in order (Python's dict keeps the
last occurrence; such input is unreachable from `dumps`, whose objects
have distinct keys, and first-match `lookup?` reads are unaffected for
distinct-key objects). -/
def loads (s : String) : Option PyVal :=
  let cs := skipWs s.data
  match parseVal (2 * cs.length + 1) cs with
  | some (v, rest) => if skipWs rest = [] then some v else Option.none
  | Option.none => Option.none

example : loads "\x7b\"ok\":true\x7d" = some (.dict [("ok", .bool true)]) := by decide
example : loads "plain" = Option.none := by decide
example : loads "\x7b\"a\": 1\x7d" = some (.dict [("a", .int 1)]) := by decide
example : loads "\"text\"" = some (.str "text") := by decide
example : loads " [1, -2, null] " = some (.list [.int 1, .int (-2), .none]) := by decide
example : loads "\x7b\"a\": \x7b\"b\": [true, false]\x7d, \"c\": \"d\"\x7d"
    = some (.dict [("a", .dict [("b", .list [.bool true, .bool false])]), ("c", .str "d")]) := by
  decide
example : loads "\x7b\x7d" = some (.dict []) := by decide
example : loads "[]" = some (.list []) := by decide
example : loads "1 2" = Option.none := by decide
example : loads "" = Option.none := by decide

/-! ### Round trip: `loads (dumps v) = some v`

The round-trip theorem covers every value whose strings lie within the
basic multilingual plane — the declared boundary of the string codec
(Python renders astral code points as surrogate pairs, which the model
does not implement) — and whose objects have distinct keys (as Python
dicts necessarily do).  Escaped characters (quote, backslash, control
characters, non-ASCII) round-trip through `escapeChar`/`parseStringBody`. -/

/-- A character within the basic multilingual plane. -/
def bmpChar (c : Char) : Bool := c.toNat ≤ 65535

/-- Strings of BMP characters. -/
def strOk (s : String) : Bool := s.data.all bmpChar

mutual

/-- Well-formed values for the round-trip statement. -/
def jsonOk : PyVal → Bool
  | .none => true
  | .bool _ => true
  | .int _ => true
  | .str s => strOk s
  | .list xs => jsonOkL xs
  | .dict fs => jsonOkF fs

def jsonOkL : List PyVal → Bool
  | [] => true
  | v :: vs => jsonOk v && jsonOkL vs

def jsonOkF : List (String × PyVal) → Bool
  | [] => true
  | (k, v) :: fs => strOk k && (lookup? fs k).isNone && jsonOk v && jsonOkF fs

end

/-- Does the input start with a decimal digit (so that a greedy number parse
would keep consuming)? -/
def digitStart : List Char → Bool
  | [] => false
  | c :: _ => c.isDigit

theorem natDigitsGo_acc : ∀ (fuel n : Nat) (acc : List Char), n < fuel →
    natDigitsGo fuel n acc = natDigitsGo fuel n [] ++ acc := by
  intro fuel
  induction fuel with
  | zero => intro n acc h; omega
  | succ fuel ih =>
      intro n acc h
      by_cases h10 : n < 10
      · simp [natDigitsGo, h10]
      · have hdiv : n / 10 < fuel := by
          have : n / 10 < n := Nat.div_lt_self (by omega) (by omega)
          omega
        simp only [natDigitsGo, if_neg h10]
        rw [ih _ _ hdiv, ih _ (Char.ofNat (48 + n % 10) :: []) hdiv]
        simp

theorem natDigitsGo_fuel : ∀ (n f₁ f₂ : Nat), n < f₁ → n < f₂ →
    natDigitsGo f₁ n [] = natDigitsGo f₂ n [] := by
  intro n
  induction n using Nat.strong_induction_on with
  | _ n ih =>
      intro f₁ f₂ h₁ h₂
      obtain ⟨g₁, rfl⟩ : ∃ g, f₁ = g + 1 := ⟨f₁ - 1, by omega⟩
      obtain ⟨g₂, rfl⟩ : ∃ g, f₂ = g + 1 := ⟨f₂ - 1, by omega⟩
      by_cases h10 : n < 10
      · simp [natDigitsGo, h10]
      · have hn : n / 10 < n := Nat.div_lt_self (by omega) (by omega)
        simp only [natDigitsGo, if_neg h10]
        rw [natDigitsGo_acc _ _ _ (by omega), natDigitsGo_acc g₂ _ _ (by omega),
          ih _ hn g₁ g₂ (by omega) (by omega)]

/-- Unfolding equation for `natDigits` in recursive form. -/
theorem natDigits_eq (n : Nat) :
    natDigits n = if n < 10 then [Char.ofNat (48 + n)]
      else natDigits (n / 10) ++ [Char.ofNat (48 + n % 10)] := by
  by_cases h10 : n < 10
  · simp [natDigits, natDigitsGo, h10]
  · have hn : n / 10 < n := Nat.div_lt_self (by omega) (by omega)
    have h1 : natDigits n = natDigitsGo n (n / 10) [Char.ofNat (48 + n % 10)] := by
      simp only [natDigits, natDigitsGo, if_neg h10]
    rw [h1, natDigitsGo_acc n (n / 10) _ (by omega),
      natDigitsGo_fuel (n / 10) n (n / 10 + 1) (by omega) (by omega), if_neg h10]
    rfl

theorem digitChar_isDigit {k : Nat} (h : k < 10) : (Char.ofNat (48 + k)).isDigit = true := by
  interval_cases k <;> decide

theorem digitChar_val {k : Nat} (h : k < 10) : digitVal (Char.ofNat (48 + k)) = k := by
  interval_cases k <;> decide

theorem natDigits_shape (n : Nat) :
    ∃ (k : Nat) (t : List Char), k < 10 ∧ natDigits n = Char.ofNat (48 + k) :: t := by
  induction n using Nat.strong_induction_on with
  | _ n ih =>
      rw [natDigits_eq]
      by_cases h10 : n < 10
      · exact ⟨n, [], h10, by rw [if_pos h10]⟩
      · have hn : n / 10 < n := Nat.div_lt_self (by omega) (by omega)
        obtain ⟨k, t, hk, ht⟩ := ih _ hn
        exact ⟨k, t ++ [Char.ofNat (48 + n % 10)], hk, by rw [if_neg h10, ht]; rfl⟩

theorem parseDigits_stop {rest : List Char} (h : digitStart rest = false) (acc : Nat) :
    parseDigits acc rest = (acc, rest) := by
  cases rest with
  | nil => rfl
  | cons c cs => simp [digitStart] at h; simp [parseDigits, h]

theorem parseDigits_natDigits :
    ∀ (n acc : Nat) (rest : List Char),
      parseDigits acc (natDigits n ++ rest)
        = parseDigits (acc * 10 ^ (natDigits n).length + n) rest := by
  intro n
  induction n using Nat.strong_induction_on with
  | _ n ih =>
      intro acc rest
      by_cases h10 : n < 10
      · rw [natDigits_eq, if_pos h10]
        simp [parseDigits, digitChar_isDigit h10, digitChar_val h10]
      · have hn : n / 10 < n := Nat.div_lt_self (by omega) (by omega)
        have hm : n % 10 < 10 := Nat.mod_lt _ (by omega)
        have harith : (acc * 10 ^ (natDigits (n / 10)).length + n / 10) * 10 + n % 10
            = acc * 10 ^ ((natDigits (n / 10)).length + 1) + n := by
          rw [pow_succ]
          have := Nat.div_add_mod n 10
          ring_nf
          omega
        rw [natDigits_eq, if_neg h10, List.append_assoc, ih _ hn, List.cons_append,
          List.nil_append]
        simp only [parseDigits, digitChar_isDigit hm, if_pos, digitChar_val hm,
          List.length_append, List.length_cons, List.length_nil]
        rw [harith]

/-- Parsing the decimal digits of `n` followed by a non-digit yields `n`. -/
theorem parseDigits_roundtrip {rest : List Char} (n : Nat)
    (h : digitStart rest = false) :
    ∃ (k : Nat) (t : List Char), k < 10 ∧ natDigits n = Char.ofNat (48 + k) :: t ∧
      parseDigits k (t ++ rest) = (n, rest) := by
  obtain ⟨k, t, hk, ht⟩ := natDigits_shape n
  refine ⟨k, t, hk, ht, ?_⟩
  have h0 : parseDigits 0 (natDigits n ++ rest) = (n, rest) := by
    rw [parseDigits_natDigits, Nat.zero_mul, Nat.zero_add, parseDigits_stop h]
  rw [ht] at h0
  simpa [parseDigits, digitChar_isDigit hk, digitChar_val hk] using h0

theorem toNat_ofNat_valid {n : Nat} (h : n.isValidChar) : (Char.ofNat n).toNat = n := by
  simp [Char.ofNat, h, Char.toNat, Char.ofNatAux]
  rfl

theorem char_toNat_inj {a b : Char} (h : a.toNat = b.toNat) : a = b :=
  Char.eq_of_val_eq (UInt32.ext h)

theorem charOfNat_toNat (c : Char) : Char.ofNat c.toNat = c :=
  char_toNat_inj (toNat_ofNat_valid c.valid)

theorem hexVal_hexDigit {k : Nat} (h : k < 16) : hexVal (hexDigit k) = some k := by
  interval_cases k <;> decide

/-- Consuming the escape `json.dumps` emits for one BMP character resumes
the string-body parse with that character accumulated. -/
theorem parseStringBody_escapeChar (c : Char) (hc : c.toNat ≤ 65535)
    (acc tail : List Char) :
    parseStringBody acc (escapeChar c ++ tail) = parseStringBody (c :: acc) tail := by
  by_cases h1 : c = '"'
  · subst h1
    rw [show escapeChar '"' = ['\\', '"'] from rfl, List.cons_append, List.cons_append,
      parseStringBody.eq_def]
    simp
  by_cases h2 : c = '\\'
  · subst h2
    rw [show escapeChar '\\' = ['\\', '\\'] from rfl, List.cons_append, List.cons_append,
      parseStringBody.eq_def]
    simp
  by_cases h3 : c = '\n'
  · subst h3
    rw [show escapeChar '\n' = ['\\', 'n'] from rfl, List.cons_append, List.cons_append,
      parseStringBody.eq_def]
    simp
  by_cases h4 : c = '\t'
  · subst h4
    rw [show escapeChar '\t' = ['\\', 't'] from rfl, List.cons_append, List.cons_append,
      parseStringBody.eq_def]
    simp
  by_cases h5 : c = '\r'
  · subst h5
    rw [show escapeChar '\r' = ['\\', 'r'] from rfl, List.cons_append, List.cons_append,
      parseStringBody.eq_def]
    simp
  by_cases h6 : c = Char.ofNat 8
  · subst h6
    rw [show escapeChar (Char.ofNat 8) = ['\\', 'b'] from rfl, List.cons_append,
      List.cons_append, parseStringBody.eq_def]
    simp
  by_cases h7 : c = Char.ofNat 12
  · subst h7
    rw [show escapeChar (Char.ofNat 12) = ['\\', 'f'] from rfl, List.cons_append,
      List.cons_append, parseStringBody.eq_def]
    simp
  by_cases h8 : c.toNat < 32 ∨ 126 < c.toNat
  · have hesc : escapeChar c = '\\' :: 'u' :: hex4 c.toNat := by
      simp only [escapeChar, if_neg h1, if_neg h2, if_neg h3, if_neg h4, if_neg h5,
        if_neg h6, if_neg h7]
      rw [if_pos]
      rcases h8 with h | h <;> simp [h]
    have e1 : c.toNat / 4096 % 16 < 16 := Nat.mod_lt _ (by omega)
    have e2 : c.toNat / 256 % 16 < 16 := Nat.mod_lt _ (by omega)
    have e3 : c.toNat / 16 % 16 < 16 := Nat.mod_lt _ (by omega)
    have e4 : c.toNat % 16 < 16 := Nat.mod_lt _ (by omega)
    have hsum : c.toNat / 4096 % 16 * 4096 + c.toNat / 256 % 16 * 256
        + c.toNat / 16 % 16 * 16 + c.toNat % 16 = c.toNat := by
      omega
    rw [hesc, hex4, List.cons_append, List.cons_append, parseStringBody.eq_def]
    simp only [List.cons_append]
    simp [hexVal_hexDigit e1, hexVal_hexDigit e2, hexVal_hexDigit e3, hexVal_hexDigit e4,
      hsum, charOfNat_toNat]
  · have h32 : 32 ≤ c.toNat := by omega
    have hesc : escapeChar c = [c] := by
      simp only [escapeChar, if_neg h1, if_neg h2, if_neg h3, if_neg h4, if_neg h5,
        if_neg h6, if_neg h7]
      rw [if_neg]
      simp
      omega
    rw [hesc, List.cons_append, List.nil_append, parseStringBody.eq_def]
    simp only [if_neg h1, if_neg h2, if_pos h32]

/-- Parsing the escaped rendering of a BMP string, followed by the closing
quote, yields exactly that string. -/
theorem parseStringBody_escape :
    ∀ (l : List Char), (∀ c ∈ l, c.toNat ≤ 65535) → ∀ (acc rest : List Char),
      parseStringBody acc ((l.map escapeChar).flatten ++ '"' :: rest)
        = some (String.mk (acc.reverse ++ l), rest) := by
  intro l
  induction l with
  | nil =>
      intro _ acc rest
      rw [List.map_nil, List.flatten_nil, List.nil_append, parseStringBody.eq_def]
      simp
  | cons c l ih =>
      intro h acc rest
      rw [List.map_cons, List.flatten_cons, List.append_assoc,
        parseStringBody_escapeChar c (h c (by simp))]
      rw [ih (fun d hd => h d (by simp [hd]))]
      simp

/-- Membership form of `strOk`. -/
theorem strOk_mem {s : String} (h : strOk s = true) : ∀ c ∈ s.data, c.toNat ≤ 65535 := by
  intro c hc
  have hb := List.all_eq_true.mp h c hc
  simpa [bmpChar] using hb

theorem skipWs_not_ws {c : Char} {l : List Char} (h : isWsChar c = false) :
    skipWs (c :: l) = c :: l := by
  simp [skipWs, h]

theorem digitChar_not_special {k : Nat} (h : k < 10) :
    isWsChar (Char.ofNat (48 + k)) = false ∧ Char.ofNat (48 + k) ≠ ']' ∧
      Char.ofNat (48 + k) ≠ '}' ∧ Char.ofNat (48 + k) ≠ '"' ∧
      Char.ofNat (48 + k) ≠ '[' ∧ Char.ofNat (48 + k) ≠ '{' ∧
      Char.ofNat (48 + k) ≠ '-' := by
  interval_cases k <;> decide

/-- The first character emitted for a value: never whitespace, never a
closing bracket, never a comma. -/
theorem dumpVal_head (v : PyVal) :
    ∃ (c : Char) (t : List Char), dumpVal v = c :: t ∧ isWsChar c = false ∧
      c ≠ ']' ∧ c ≠ '}' := by
  cases v with
  | none => exact ⟨'n', _, rfl, by decide, by decide, by decide⟩
  | bool b =>
      cases b
      · exact ⟨'f', _, rfl, by decide, by decide, by decide⟩
      · exact ⟨'t', _, rfl, by decide, by decide, by decide⟩
  | int n =>
      by_cases hneg : n < 0
      · refine ⟨'-', natDigits n.natAbs, ?_, by decide, by decide, by decide⟩
        simp [dumpVal, intStr, hneg]
      · obtain ⟨k, t, hk, ht⟩ := natDigits_shape n.natAbs
        obtain ⟨h1, h2, h3, _⟩ := digitChar_not_special hk
        refine ⟨Char.ofNat (48 + k), t, ?_, h1, h2, h3⟩
        simp [dumpVal, intStr, hneg, ht]
  | str s => exact ⟨'"', _, rfl, by decide, by decide, by decide⟩
  | list xs => exact ⟨'[', _, rfl, by decide, by decide, by decide⟩
  | dict fs => exact ⟨'{', _, rfl, by decide, by decide, by decide⟩

mutual

/-- Fuel needed by `parseVal` to parse `dumpVal v`. -/
def szV : PyVal → Nat
  | .list xs => 1 + szL xs
  | .dict fs => 1 + szF fs
  | _ => 1

/-- Fuel needed by `parseArrItems`/`parseArrRest`. -/
def szL : List PyVal → Nat
  | [] => 1
  | v :: vs => 1 + szV v + szL vs

/-- Fuel needed by `parseObjItems`/`parseObjRest`. -/
def szF : List (String × PyVal) → Nat
  | [] => 1
  | (_, v) :: fs => 1 + szV v + szF fs

end

theorem szV_pos (v : PyVal) : 1 ≤ szV v := by
  cases v <;> simp [szV]

theorem szL_pos (xs : List PyVal) : 1 ≤ szL xs := by
  cases xs with
  | nil => simp [szL]
  | cons v vs => simp [szL]; omega

theorem szF_pos (fs : List (String × PyVal)) : 1 ≤ szF fs := by
  cases fs with
  | nil => simp [szF]
  | cons f fs => obtain ⟨k, v⟩ := f; simp [szF]; omega

theorem mk_data (s : String) : String.mk s.data = s := rfl

theorem skipWs_space (l : List Char) : skipWs (' ' :: l) = skipWs l := by
  simp [skipWs, isWsChar]

theorem skipWs_dumpVal (v : PyVal) (rest : List Char) :
    skipWs (dumpVal v ++ rest) = dumpVal v ++ rest := by
  obtain ⟨c, t, hct, hws, _, _⟩ := dumpVal_head v
  rw [hct, List.cons_append, skipWs_not_ws hws]

theorem skipWs_dumpArr (xs : List PyVal) (rest : List Char) :
    skipWs (dumpArr xs ++ rest) = dumpArr xs ++ rest := by
  cases xs with
  | nil => simp [dumpArr, skipWs, isWsChar]
  | cons v vs =>
      rw [dumpArr, List.append_assoc, skipWs_dumpVal]

theorem skipWs_dumpArrTail (xs : List PyVal) (rest : List Char) :
    skipWs (dumpArrTail xs ++ rest) = dumpArrTail xs ++ rest := by
  cases xs with
  | nil => simp [dumpArrTail, skipWs, isWsChar]
  | cons v vs => rw [dumpArrTail, List.cons_append, skipWs_not_ws (by decide)]

theorem skipWs_dumpObj (fs : List (String × PyVal)) (rest : List Char) :
    skipWs (dumpObj fs ++ rest) = dumpObj fs ++ rest := by
  cases fs with
  | nil => simp [dumpObj, skipWs, isWsChar]
  | cons f fs =>
      obtain ⟨k, v⟩ := f
      rw [dumpObj, dumpStr]
      simp only [List.cons_append, List.append_assoc]
      rw [skipWs_not_ws (by decide)]

theorem skipWs_dumpObjTail (fs : List (String × PyVal)) (rest : List Char) :
    skipWs (dumpObjTail fs ++ rest) = dumpObjTail fs ++ rest := by
  cases fs with
  | nil => simp [dumpObjTail, skipWs, isWsChar]
  | cons f fs =>
      obtain ⟨k, v⟩ := f
      rw [dumpObjTail, List.cons_append, skipWs_not_ws (by decide)]

theorem digitStart_dumpArrTail (xs : List PyVal) (rest : List Char) :
    digitStart (dumpArrTail xs ++ rest) = false := by
  cases xs with
  | nil => simp [dumpArrTail, digitStart]
  | cons v vs =>
      rw [dumpArrTail, List.cons_append]
      simp only [digitStart]
      decide

theorem digitStart_dumpObjTail (fs : List (String × PyVal)) (rest : List Char) :
    digitStart (dumpObjTail fs ++ rest) = false := by
  cases fs with
  | nil => simp [dumpObjTail, digitStart]
  | cons f fs =>
      obtain ⟨k, v⟩ := f
      rw [dumpObjTail, List.cons_append]
      simp only [digitStart]
      decide

/-- Definitional unfolding of `parseVal` at a `cons` input (the automatic
unfold theorem is not generated for this mutual definition, but the
recursion is structural, so the equation holds by `rfl`). -/
theorem parseVal_cons (fuel : Nat) (c : Char) (cs' : List Char) :
    parseVal (fuel + 1) (c :: cs')
      = (if c = '"' then (parseStringBody [] cs').map (fun p => (.str p.1, p.2))
        else if c = '[' then
          match parseArrItems fuel (skipWs cs') with
          | some p => some (.list p.1, p.2)
          | Option.none => Option.none
        else if c = '{' then
          match parseObjItems fuel (skipWs cs') with
          | some p => some (.dict p.1, p.2)
          | Option.none => Option.none
        else if c = '-' then
          match cs' with
          | [] => Option.none
          | d :: cs'' =>
            if d.isDigit then
              let p := parseDigits (digitVal d) cs''
              some (.int (-(p.1 : Int)), p.2)
            else Option.none
        else if c.isDigit then
          let p := parseDigits (digitVal c) cs'
          some (.int (p.1 : Int), p.2)
        else if c = 'n' then (dropLit "ull".data cs').map (fun r => (PyVal.none, r))
        else if c = 't' then (dropLit "rue".data cs').map (fun r => (.bool true, r))
        else if c = 'f' then (dropLit "alse".data cs').map (fun r => (.bool false, r))
        else Option.none) := rfl

/-- Definitional unfolding of `parseArrItems` at a `cons` input. -/
theorem parseArrItems_cons (fuel : Nat) (c : Char) (cs' : List Char) :
    parseArrItems (fuel + 1) (c :: cs')
      = (if c = ']' then some ([], cs')
        else
          match parseVal fuel (c :: cs') with
          | some (v, cs₂) =>
            match parseArrRest fuel (skipWs cs₂) with
            | some (vs, cs₃) => some (v :: vs, cs₃)
            | Option.none => Option.none
          | Option.none => Option.none) := rfl

/-- Definitional unfolding of `parseArrRest` at a `cons` input. -/
theorem parseArrRest_cons (fuel : Nat) (c : Char) (cs' : List Char) :
    parseArrRest (fuel + 1) (c :: cs')
      = (if c = ']' then some ([], cs')
        else if c = ',' then
          match parseVal fuel (skipWs cs') with
          | some (v, cs₂) =>
            match parseArrRest fuel (skipWs cs₂) with
            | some (vs, cs₃) => some (v :: vs, cs₃)
            | Option.none => Option.none
          | Option.none => Option.none
        else Option.none) := rfl

/-- Definitional unfolding of `parseObjItems` at a `cons` input. -/
theorem parseObjItems_cons (fuel : Nat) (c : Char) (cs' : List Char) :
    parseObjItems (fuel + 1) (c :: cs')
      = (if c = '}' then some ([], cs')
        else if c = '"' then
          match parseStringBody [] cs' with
          | some (k, cs₂) =>
            match skipWs cs₂ with
            | ':' :: cs₃ =>
              match parseVal fuel (skipWs cs₃) with
              | some (v, cs₄) =>
                match parseObjRest fuel (skipWs cs₄) with
                | some (fs, cs₅) => some ((k, v) :: fs, cs₅)
                | Option.none => Option.none
              | Option.none => Option.none
            | _ => Option.none
          | Option.none => Option.none
        else Option.none) := rfl

/-- Definitional unfolding of `parseObjRest` at a `cons` input. -/
theorem parseObjRest_cons (fuel : Nat) (c : Char) (cs' : List Char) :
    parseObjRest (fuel + 1) (c :: cs')
      = (if c = '}' then some ([], cs')
        else if c = ',' then
          match skipWs cs' with
          | '"' :: cs₂ =>
            match parseStringBody [] cs₂ with
            | some (k, cs₃) =>
              match skipWs cs₃ with
              | ':' :: cs₄ =>
                match parseVal fuel (skipWs cs₄) with
                | some (v, cs₅) =>
                  match parseObjRest fuel (skipWs cs₅) with
                  | some (fs, cs₆) => some ((k, v) :: fs, cs₆)
                  | Option.none => Option.none
                | Option.none => Option.none
              | _ => Option.none
            | Option.none => Option.none
          | _ => Option.none
        else Option.none) := rfl

/-- Round trip of the five mutual parsers against the serializer, proved
simultaneously by strong induction on the fuel. -/
theorem parse_dump_all : ∀ fuel : Nat,
    (∀ (v : PyVal) (rest : List Char), jsonOk v = true → szV v ≤ fuel →
      digitStart rest = false → parseVal fuel (dumpVal v ++ rest) = some (v, rest))
  ∧ (∀ (xs : List PyVal) (rest : List Char), jsonOkL xs = true → szL xs ≤ fuel →
      parseArrItems fuel (dumpArr xs ++ rest) = some (xs, rest))
  ∧ (∀ (xs : List PyVal) (rest : List Char), jsonOkL xs = true → szL xs ≤ fuel →
      parseArrRest fuel (dumpArrTail xs ++ rest) = some (xs, rest))
  ∧ (∀ (fs : List (String × PyVal)) (rest : List Char), jsonOkF fs = true → szF fs ≤ fuel →
      parseObjItems fuel (dumpObj fs ++ rest) = some (fs, rest))
  ∧ (∀ (fs : List (String × PyVal)) (rest : List Char), jsonOkF fs = true → szF fs ≤ fuel →
      parseObjRest fuel (dumpObjTail fs ++ rest) = some (fs, rest)) := by
  intro fuel
  induction fuel using Nat.strong_induction_on with
  | _ fuel IH =>
    cases fuel with
    | zero =>
      refine ⟨?_, ?_, ?_, ?_, ?_⟩
      · intro v _ _ hsz _; have := szV_pos v; omega
      · intro xs _ _ hsz; have := szL_pos xs; omega
      · intro xs _ _ hsz; have := szL_pos xs; omega
      · intro fs _ _ hsz; have := szF_pos fs; omega
      · intro fs _ _ hsz; have := szF_pos fs; omega
    | succ fuel =>
      have ihV := (IH fuel (by omega)).1
      have ihA := (IH fuel (by omega)).2.1
      have ihR := (IH fuel (by omega)).2.2.1
      have ihO := (IH fuel (by omega)).2.2.2.1
      have ihQ := (IH fuel (by omega)).2.2.2.2
      refine ⟨?_, ?_, ?_, ?_, ?_⟩
      · -- parseVal
        intro v rest hok hsz hds
        cases v with
        | none =>
            rw [show dumpVal .none ++ rest = 'n' :: 'u' :: 'l' :: 'l' :: rest from rfl,
              parseVal_cons]
            simp [dropLit]
        | bool b =>
            cases b
            · rw [show dumpVal (.bool false) ++ rest
                    = 'f' :: 'a' :: 'l' :: 's' :: 'e' :: rest from rfl, parseVal_cons]
              simp [dropLit]
            · rw [show dumpVal (.bool true) ++ rest
                    = 't' :: 'r' :: 'u' :: 'e' :: rest from rfl, parseVal_cons]
              simp [dropLit]
        | int n =>
            obtain ⟨k, t, hk, ht, hp⟩ := parseDigits_roundtrip n.natAbs hds
            obtain ⟨hw, hrb, hcb, hq, hlb, hob, hmn⟩ := digitChar_not_special hk
            by_cases hneg : n < 0
            · have hd : dumpVal (.int n) ++ rest
                  = '-' :: (Char.ofNat (48 + k) :: (t ++ rest)) := by
                simp [dumpVal, intStr, hneg, ht]
              rw [hd, parseVal_cons]
              simp [digitChar_isDigit hk, digitChar_val hk, hp]
              rw [abs_of_neg hneg, neg_neg]
            · have hd : dumpVal (.int n) ++ rest = Char.ofNat (48 + k) :: (t ++ rest) := by
                simp [dumpVal, intStr, hneg, ht]
              have habs : ((n.natAbs : Nat) : Int) = n := by omega
              rw [hd, parseVal_cons]
              simp [hq, hlb, hob, hmn, digitChar_isDigit hk, digitChar_val hk, hp, habs]
        | str s =>
            have hall : ∀ c ∈ s.data, c.toNat ≤ 65535 := by
              have hso : strOk s = true := by simpa [jsonOk] using hok
              exact strOk_mem hso
            have hd : dumpVal (.str s) ++ rest
                = '"' :: ((s.data.map escapeChar).flatten ++ '"' :: rest) := by
              simp [dumpVal, dumpStr]
            have hbody : parseStringBody [] ((s.data.map escapeChar).flatten ++ '"' :: rest)
                = some (s, rest) := by
              rw [parseStringBody_escape s.data hall]
              simp [mk_data]
            rw [hd, parseVal_cons]
            simp [hbody]
        | list xs =>
            have hokL : jsonOkL xs = true := by simpa [jsonOk] using hok
            have hszL : szL xs ≤ fuel := by simp [szV] at hsz; omega
            have hd : dumpVal (.list xs) ++ rest = '[' :: (dumpArr xs ++ rest) := by
              simp [dumpVal]
            rw [hd, parseVal_cons]
            simp [skipWs_dumpArr, ihA xs rest hokL hszL]
        | dict fs =>
            have hokF : jsonOkF fs = true := by simpa [jsonOk] using hok
            have hszF : szF fs ≤ fuel := by simp [szV] at hsz; omega
            have hd : dumpVal (.dict fs) ++ rest = '{' :: (dumpObj fs ++ rest) := by
              simp [dumpVal]
            rw [hd, parseVal_cons]
            simp [skipWs_dumpObj, ihO fs rest hokF hszF]
      · -- parseArrItems
        intro xs rest hok hsz
        cases xs with
        | nil =>
            rw [show dumpArr [] ++ rest = ']' :: rest from rfl, parseArrItems_cons]
            simp
        | cons v vs =>
            simp only [jsonOkL, Bool.and_eq_true] at hok
            obtain ⟨hokV, hokL⟩ := hok
            have hszV : szV v ≤ fuel := by simp [szL] at hsz; omega
            have hszL : szL vs ≤ fuel := by simp [szL] at hsz; omega
            obtain ⟨c, t, hct, hws, hrb, hcb⟩ := dumpVal_head v
            have hd : dumpArr (v :: vs) ++ rest = c :: (t ++ (dumpArrTail vs ++ rest)) := by
              simp [dumpArr, hct]
            have hV : parseVal fuel (c :: (t ++ (dumpArrTail vs ++ rest)))
                = some (v, dumpArrTail vs ++ rest) := by
              have h := ihV v (dumpArrTail vs ++ rest) hokV hszV
                (digitStart_dumpArrTail vs rest)
              rwa [hct, List.cons_append] at h
            rw [hd, parseArrItems_cons]
            simp [hrb, hV, skipWs_dumpArrTail, ihR vs rest hokL hszL]
      · -- parseArrRest
        intro xs rest hok hsz
        cases xs with
        | nil =>
            rw [show dumpArrTail [] ++ rest = ']' :: rest from rfl, parseArrRest_cons]
            simp
        | cons v vs =>
            simp only [jsonOkL, Bool.and_eq_true] at hok
            obtain ⟨hokV, hokL⟩ := hok
            have hszV : szV v ≤ fuel := by simp [szL] at hsz; omega
            have hszL : szL vs ≤ fuel := by simp [szL] at hsz; omega
            have hd : dumpArrTail (v :: vs) ++ rest
                = ',' :: ' ' :: (dumpVal v ++ (dumpArrTail vs ++ rest)) := by
              simp [dumpArrTail]
            have hs1 : skipWs (' ' :: (dumpVal v ++ (dumpArrTail vs ++ rest)))
                = dumpVal v ++ (dumpArrTail vs ++ rest) := by
              rw [skipWs_space, skipWs_dumpVal]
            have hV := ihV v (dumpArrTail vs ++ rest) hokV hszV
              (digitStart_dumpArrTail vs rest)
            rw [hd, parseArrRest_cons]
            simp [hs1, hV, skipWs_dumpArrTail, ihR vs rest hokL hszL]
      · -- parseObjItems
        intro fs rest hok hsz
        cases fs with
        | nil =>
            rw [show dumpObj [] ++ rest = '}' :: rest from rfl, parseObjItems_cons]
            simp
        | cons f fs' =>
            obtain ⟨k, v⟩ := f
            simp only [jsonOkF, Bool.and_eq_true] at hok
            obtain ⟨⟨⟨hsk, -⟩, hokV⟩, hokF⟩ := hok
            have hall : ∀ c ∈ k.data, c.toNat ≤ 65535 := strOk_mem hsk
            have hszV : szV v ≤ fuel := by simp [szF] at hsz; omega
            have hszF : szF fs' ≤ fuel := by simp [szF] at hsz; omega
            have hd : dumpObj ((k, v) :: fs') ++ rest
                = '"' :: ((k.data.map escapeChar).flatten ++ '"' ::
                    (':' :: ' ' :: (dumpVal v ++ (dumpObjTail fs' ++ rest)))) := by
              simp [dumpObj, dumpStr]
            have hkey : parseStringBody []
                ((k.data.map escapeChar).flatten ++ '"' ::
                  (':' :: ' ' :: (dumpVal v ++ (dumpObjTail fs' ++ rest))))
                = some (k, ':' :: ' ' :: (dumpVal v ++ (dumpObjTail fs' ++ rest))) := by
              rw [parseStringBody_escape k.data hall]
              simp [mk_data]
            have hs1 : skipWs (' ' :: (dumpVal v ++ (dumpObjTail fs' ++ rest)))
                = dumpVal v ++ (dumpObjTail fs' ++ rest) := by
              rw [skipWs_space, skipWs_dumpVal]
            have hV := ihV v (dumpObjTail fs' ++ rest) hokV hszV
              (digitStart_dumpObjTail fs' rest)
            rw [hd, parseObjItems_cons]
            simp [hkey, skipWs_not_ws (show isWsChar ':' = false from rfl), hs1, hV,
              skipWs_dumpObjTail, ihQ fs' rest hokF hszF]
      · -- parseObjRest
        intro fs rest hok hsz
        cases fs with
        | nil =>
            rw [show dumpObjTail [] ++ rest = '}' :: rest from rfl, parseObjRest_cons]
            simp
        | cons f fs' =>
            obtain ⟨k, v⟩ := f
            simp only [jsonOkF, Bool.and_eq_true] at hok
            obtain ⟨⟨⟨hsk, -⟩, hokV⟩, hokF⟩ := hok
            have hall : ∀ c ∈ k.data, c.toNat ≤ 65535 := strOk_mem hsk
            have hszV : szV v ≤ fuel := by simp [szF] at hsz; omega
            have hszF : szF fs' ≤ fuel := by simp [szF] at hsz; omega
            have hd : dumpObjTail ((k, v) :: fs') ++ rest
                = ',' :: ' ' :: ('"' :: ((k.data.map escapeChar).flatten ++ '"' ::
                    (':' :: ' ' :: (dumpVal v ++ (dumpObjTail fs' ++ rest))))) := by
              simp [dumpObjTail, dumpStr]
            have hkey : parseStringBody []
                ((k.data.map escapeChar).flatten ++ '"' ::
                  (':' :: ' ' :: (dumpVal v ++ (dumpObjTail fs' ++ rest))))
                = some (k, ':' :: ' ' :: (dumpVal v ++ (dumpObjTail fs' ++ rest))) := by
              rw [parseStringBody_escape k.data hall]
              simp [mk_data]
            have hs0 : skipWs ('"' :: ((k.data.map escapeChar).flatten ++ '"' ::
                (':' :: ' ' :: (dumpVal v ++ (dumpObjTail fs' ++ rest)))))
                = '"' :: ((k.data.map escapeChar).flatten ++ '"' ::
                    (':' :: ' ' :: (dumpVal v ++ (dumpObjTail fs' ++ rest)))) :=
              skipWs_not_ws (by decide)
            have hs1 : skipWs (' ' :: (dumpVal v ++ (dumpObjTail fs' ++ rest)))
                = dumpVal v ++ (dumpObjTail fs' ++ rest) := by
              rw [skipWs_space, skipWs_dumpVal]
            have hV := ihV v (dumpObjTail fs' ++ rest) hokV hszV
              (digitStart_dumpObjTail fs' rest)
            rw [hd, parseObjRest_cons]
            simp [skipWs_space, hs0, hkey, skipWs_not_ws (show isWsChar ':' = false from rfl),
              hs1, skipWs_dumpVal, hV, skipWs_dumpObjTail, ihQ fs' rest hokF hszF]

mutual

theorem szV_le : ∀ v : PyVal, szV v ≤ 2 * (dumpVal v).length + 1
  | .none => by simp [szV]
  | .bool b => by cases b <;> simp [szV]
  | .int n => by simp [szV]
  | .str s => by simp [szV]
  | .list xs => by
      have h := szL_le xs
      simp only [szV, dumpVal, List.length_cons]
      omega
  | .dict fs => by
      have h := szF_le fs
      simp only [szV, dumpVal, List.length_cons]
      omega

theorem szL_le : ∀ xs : List PyVal, szL xs ≤ 2 * (dumpArr xs).length + 1
  | [] => by simp [szL, dumpArr]
  | v :: vs => by
      have h1 := szV_le v
      have h2 := szL_tail_le vs
      simp only [szL, dumpArr, List.length_append]
      omega

theorem szL_tail_le : ∀ xs : List PyVal, szL xs + 1 ≤ 2 * (dumpArrTail xs).length
  | [] => by simp [szL, dumpArrTail]
  | v :: vs => by
      have h1 := szV_le v
      have h2 := szL_tail_le vs
      simp only [szL, dumpArrTail, List.length_cons, List.length_append]
      omega

theorem szF_le : ∀ fs : List (String × PyVal), szF fs ≤ 2 * (dumpObj fs).length + 1
  | [] => by simp [szF, dumpObj]
  | (k, v) :: fs => by
      have h1 := szV_le v
      have h2 := szF_tail_le fs
      simp only [szF, dumpObj, List.length_append, List.length_cons]
      omega

theorem szF_tail_le : ∀ fs : List (String × PyVal), szF fs + 1 ≤ 2 * (dumpObjTail fs).length
  | [] => by simp [szF, dumpObjTail]
  | (k, v) :: fs => by
      have h1 := szV_le v
      have h2 := szF_tail_le fs
      simp only [szF, dumpObjTail, List.length_cons, List.length_append]
      omega

end

/-- The JSON round trip: decoding the dump of a well-formed value recovers
exactly that value. -/
theorem loads_dumps {v : PyVal} (h : jsonOk v = true) : loads (dumps v) = some v := by
  have hlen : szV v ≤ 2 * (dumpVal v).length + 1 := szV_le v
  have hmain := (parse_dump_all (2 * (dumpVal v).length + 1)).1 v [] h hlen
    (by simp [digitStart])
  rw [List.append_nil] at hmain
  have hskip : skipWs (dumpVal v) = dumpVal v := by
    have h2 := skipWs_dumpVal v []
    simpa using h2
  simp [loads, dumps, hskip, hmain, skipWs]

/-! ### `common/utils.py` (stateful layer)

`parse_event_body`, `handle_ping` and `create_response` from
`fixtures/esb-e2e-docker/stateful/layers/common/python/common/utils.py`. -/

/-- `parse_event_body(event)`: for a dict with a `body` key, JSON-decode a
string body (empty dict on decode failure) or take a structured body as-is;
a dict without `body` is returned itself; non-dict events yield `{}`. -/
def parse_event_body (event : PyVal) : PyVal :=
  match event with
  | .dict fs =>
    match lookup? fs "body" with
    | some body =>
      match body with
      | .str s =>
        match loads s with
        | some v => v
        | Option.none => .dict []
      | _ => body
    | Option.none => .dict fs
  | _ => .dict []

/-- `handle_ping(event)`: answer `{"statusCode": 200, "body": "pong"}` for a
dict whose `ping` value is truthy, else `None`. -/
def handle_ping (event : PyVal) : Option PyVal :=
  if event.isObj ∧ truthy (event.get "ping" PyVal.none) then
    some (.dict [("statusCode", .int 200), ("body", .str "pong")])
  else Option.none

/-- `create_response(status_code=200, body=None, headers=None)`; the Python
defaults are passed explicitly as `PyVal.none` at call sites. -/
def create_response (status_code : PyVal) (body : PyVal) (headers : PyVal) : PyVal :=
  let headers' := if headers = PyVal.none
    then PyVal.dict [("Content-Type", .str "application/json")] else headers
  let body' := if body ≠ PyVal.none ∧ body.isStr = false then PyVal.str (dumps body) else body
  .dict [("statusCode", status_code), ("headers", headers'), ("body", body')]

/-- Python `str()` as used by the fixtures' f-strings and `str(...)` casts.
Scalars are rendered exactly; container reprs (which no claim inspects)
are placeholders. -/
def pyStr : PyVal → String
  | .none => "None"
  | .bool true => "True"
  | .bool false => "False"
  | .int n => intStr n
  | .str s => s
  | .list _ => "[...]"
  | .dict _ => "\x7b...\x7d"

/-! ### Effects, collaborators and the handler monad

The fixtures call AWS collaborators through `boto3`; those calls are
modelled by an injected `AwsWorld` of fallible operations, with every
attempted call recorded in an `Effect` trace, and Python exceptions
modelled by `Except PyErr` (the payload is `str(exc)`). -/

/-- Python exception, reduced to its message (`str(exc)`). -/
abbrev PyErr := String

/-- Result of `boto3` `lambda.invoke`: dispatch status plus the raw
response payload text (`response["Payload"].read().decode()`). -/
structure InvokeResp where
  statusCode : Int
  payload : String
deriving Repr, DecidableEq

/-- Observable collaborator calls made by a handler. -/
inductive Effect where
  | envelopeParse (event : PyVal)
  | dynamoPutItem (table : String) (item : PyVal)
  | dynamoGetItem (table : String) (key : PyVal)
  | dynamoUpdateItem (table : String) (key : PyVal) (newMessage : PyVal)
  | dynamoDeleteItem (table : String) (key : PyVal)
  | s3CreateBucket (bucket : PyVal)
  | s3PutObject (bucket : PyVal) (key : PyVal) (content : String)
  | s3GetObject (bucket : PyVal) (key : PyVal)
  | lambdaInvoke (functionName : PyVal) (invocationType : String) (payload : String)
  | logsCreateGroup (group : String)
  | logsCreateStream (group : String) (stream : String)
  | logsPutEvents (group : String) (stream : String)
deriving Repr, DecidableEq

/-- The external collaborators (boto3 clients, environment, clock, uuid),
injected so that handler behavior can be examined under any outcome. -/
structure AwsWorld where
  dynamoPutItem : String → PyVal → Except PyErr Unit
  dynamoGetItem : String → PyVal → Except PyErr PyVal
  dynamoUpdateItem : String → PyVal → PyVal → Except PyErr Unit
  dynamoDeleteItem : String → PyVal → Except PyErr Unit
  s3CreateBucket : PyVal → Except PyErr Unit
  s3PutObject : PyVal → PyVal → String → Except PyErr Unit
  s3GetObject : PyVal → PyVal → Except PyErr String
  lambdaInvoke : PyVal → String → String → Except PyErr InvokeResp
  logsCreateGroup : String → Except PyErr Unit
  logsCreateStream : String → String → Except PyErr Unit
  logsPutEvents : String → String → Except PyErr Unit
  envTableName : Option String
  envBucket : Option String
  uuid4 : String
  now : Int

/-- Handler computations: exception-or-value plus the trace of attempted
collaborator calls. -/
def Eff (α : Type) := List Effect → Except PyErr α × List Effect

instance : Monad Eff where
  pure a := fun tr => (.ok a, tr)
  bind x f := fun tr =>
    match x tr with
    | (.ok a, tr') => f a tr'
    | (.error e, tr') => (.error e, tr')

/-- Run a handler computation with an empty initial trace. -/
def Eff.run (x : Eff α) : Except PyErr α × List Effect := x []

/-- Record an attempted collaborator call. -/
def emit (e : Effect) : Eff Unit := fun tr => (.ok (), tr ++ [e])

/-- Lift a collaborator outcome (its exception propagates). -/
def liftE (x : Except PyErr α) : Eff α := fun tr => (x, tr)

/-- `raise` a Python exception. -/
def raiseE (m : PyErr) : Eff α := fun tr => (.error m, tr)

/-- `try ... except Exception as e: ...`. -/
def tryCatch (x : Eff α) (h : PyErr → Eff α) : Eff α := fun tr =>
  match x tr with
  | (.ok a, tr') => (.ok a, tr')
  | (.error e, tr') => h e tr'

/-- `try ... except Exception: pass`. -/
def swallow (x : Eff Unit) : Eff Unit := tryCatch x (fun _ => pure ())

/-- `d.get(k, default)` where a non-dict raises `AttributeError`. -/
def PyVal.getE (v : PyVal) (k : String) (d : PyVal) : Except PyErr PyVal :=
  match v with
  | .dict fs => .ok ((lookup? fs k).getD d)
  | _ => .error "AttributeError"

@[simp] theorem pure_apply (a : α) (tr : List Effect) : (pure a : Eff α) tr = (.ok a, tr) := rfl

@[simp] theorem bind_apply (x : Eff α) (f : α → Eff β) (tr : List Effect) :
    (x >>= f) tr = match x tr with
      | (.ok a, tr') => f a tr'
      | (.error e, tr') => (.error e, tr') := rfl

@[simp] theorem emit_apply (e : Effect) (tr : List Effect) :
    emit e tr = (.ok (), tr ++ [e]) := rfl

@[simp] theorem liftE_apply (x : Except PyErr α) (tr : List Effect) : liftE x tr = (x, tr) := rfl

@[simp] theorem raiseE_apply (m : PyErr) (tr : List Effect) :
    (raiseE m : Eff α) tr = (.error m, tr) := rfl

@[simp] theorem tryCatch_apply (x : Eff α) (h : PyErr → Eff α) (tr : List Effect) :
    tryCatch x h tr = match x tr with
      | (.ok a, tr') => (.ok a, tr')
      | (.error e, tr') => h e tr' := rfl

@[simp] theorem run_eq (x : Eff α) : x.run = x [] := rfl

/-- `.get` on a structured mapping never raises and agrees with `get`. -/
theorem getE_obj {v : PyVal} (h : v.isObj = true) (k : String) (d : PyVal) :
    v.getE k d = .ok (v.get k d) := by
  cases v <;> first
    | rfl
    | simp [PyVal.isObj] at h

/-- Best-effort decode of a chained response payload: the decoded JSON
value, or the undecoded raw text when decoding fails. -/
def childOf (raw : String) : PyVal :=
  match loads raw with
  | some v => v
  | Option.none => .str raw

/-! ### `core/functions/python/connectivity/lambda_function.py` -/

namespace Connectivity

def DEFAULT_TABLE : String := "e2e-test-table"
def DEFAULT_BUCKET : String := "e2e-test-bucket"
def DEFAULT_LAMBDA_TARGET : String := "lambda-echo"

/-- `handle_echo(body)`. -/
def handle_echo (body : PyVal) : Eff PyVal := do
  let message ← liftE (body.getE "message" (.str "hello"))
  pure (create_response (.int 200)
    (.dict [("success", .bool true), ("action", .str "echo"),
      ("message", .str ("Echo: " ++ pyStr message))]) PyVal.none)

/-- `handle_dynamodb_put(body)`. -/
def handle_dynamodb_put (w : AwsWorld) (body : PyVal) : Eff PyVal := do
  let table := w.envTableName.getD DEFAULT_TABLE
  let key ← liftE (body.getE "key" (.str "python-smoke"))
  let value ← liftE (body.getE "value" (.str "ok"))
  let item := PyVal.dict [("id", .dict [("S", .str (pyStr key))]),
    ("value", .dict [("S", .str (pyStr value))])]
  emit (.dynamoPutItem table item)
  liftE (w.dynamoPutItem table item)
  pure (create_response (.int 200)
    (.dict [("success", .bool true), ("action", .str "dynamodb_put")]) PyVal.none)

/-- `handle_s3_put(body)` (`create_bucket` failures are swallowed —
"bucket may already exist"). -/
def handle_s3_put (w : AwsWorld) (body : PyVal) : Eff PyVal := do
  let bucket ← liftE (body.getE "bucket" (.str (w.envBucket.getD DEFAULT_BUCKET)))
  let key ← liftE (body.getE "key" (.str "python-connectivity.txt"))
  let content ← liftE (body.getE "content" (.str "ok"))
  swallow (do
    emit (.s3CreateBucket bucket)
    liftE (w.s3CreateBucket bucket))
  emit (.s3PutObject bucket key (pyStr content))
  liftE (w.s3PutObject bucket key (pyStr content))
  pure (create_response (.int 200)
    (.dict [("success", .bool true), ("action", .str "s3_put")]) PyVal.none)

/-- `handle_chain_invoke(body)`: blocking invoke of the target, JSON-decode
of the response payload with raw-text fallback. -/
def handle_chain_invoke (w : AwsWorld) (body : PyVal) : Eff PyVal := do
  let target ← liftE (body.getE "target" (.str DEFAULT_LAMBDA_TARGET))
  let message ← liftE (body.getE "message" (.str "from-python"))
  let payloadText := dumps (.dict [("message", message)])
  emit (.lambdaInvoke target "RequestResponse" payloadText)
  let resp ← liftE (w.lambdaInvoke target "RequestResponse" payloadText)
  let child := childOf resp.payload
  pure (create_response (.int 200)
    (.dict [("success", .bool true), ("action", .str "chain_invoke"), ("child", child)])
    PyVal.none)

/-- `handle_cloudwatch()`: group/stream creation failures swallowed, any
other failure caught by its own boundary into a 500 response. -/
def handle_cloudwatch (w : AwsWorld) : Eff PyVal := do
  let log_group := "/lambda/hello-test"
  let log_stream := "test-stream-" ++ intStr w.now
  tryCatch (do
      swallow (do
        emit (.logsCreateGroup log_group)
        liftE (w.logsCreateGroup log_group))
      swallow (do
        emit (.logsCreateStream log_group log_stream)
        liftE (w.logsCreateStream log_group log_stream))
      emit (.logsPutEvents log_group log_stream)
      liftE (w.logsPutEvents log_group log_stream)
      pure (create_response (.int 200)
        (.dict [("success", .bool true), ("action", .str "test_cloudwatch"),
          ("log_stream", .str log_stream), ("log_group", .str log_group)]) PyVal.none))
    (fun exc => pure (create_response (.int 500)
      (.dict [("success", .bool false), ("error", .str exc),
        ("action", .str "test_cloudwatch")]) PyVal.none))

/-- `lambda_handler(event, context)`: ping short-circuit, body parse,
dispatch on `action` (default `"echo"`) inside a catch-all that produces a
500 response carrying the action and error.  The post-`try` fallthrough
return (for unknown actions) cannot raise, so it is modelled as the final
dispatch arm. -/
def lambda_handler (w : AwsWorld) (event : PyVal) : Eff PyVal := do
  match handle_ping event with
  | some r => pure r
  | Option.none => do
    let body := parse_event_body event
    emit (.envelopeParse event)
    let action ← liftE (body.getE "action" (.str "echo"))
    tryCatch
      (if action = PyVal.str "echo" then handle_echo body
      else if action = PyVal.str "dynamodb_put" then handle_dynamodb_put w body
      else if action = PyVal.str "s3_put" then handle_s3_put w body
      else if action = PyVal.str "chain_invoke" then handle_chain_invoke w body
      else if action = PyVal.str "test_cloudwatch" then handle_cloudwatch w
      else pure (create_response (.int 200)
        (.dict [("success", .bool true), ("action", action)]) PyVal.none))
      (fun exc => pure (create_response (.int 500)
        (.dict [("success", .bool false), ("action", action), ("error", .str exc)])
        PyVal.none))

end Connectivity

/-! ### `stateful/functions/python/dynamo/lambda_function.py` -/

namespace Dynamo

def TABLE_NAME : String := "e2e-test-table"

/-- `lambda_handler(event, context)` of the DynamoDB fixture.  The
`update_item` call's expression attributes are summarized by the key and the
new message in the effect.  Its catch-all produces
`create_response(500, {"success": False, "error": str(e)})` — without the
action name. -/
def lambda_handler (w : AwsWorld) (event : PyVal) : Eff PyVal := do
  match handle_ping event with
  | some r => pure r
  | Option.none => do
    let body := parse_event_body event
    emit (.envelopeParse event)
    let action ← liftE (body.getE "action" (.str "put_get"))
    tryCatch
      (if action = PyVal.str "put_get" then do
        let item_id := w.uuid4
        let message ← liftE (body.getE "message" (.str "Hello from ScyllaDB Lambda"))
        let item := PyVal.dict [("id", .dict [("S", .str item_id)]),
          ("timestamp", .dict [("N", .str (intStr w.now))]),
          ("message", .dict [("S", message)])]
        emit (.dynamoPutItem TABLE_NAME item)
        liftE (w.dynamoPutItem TABLE_NAME item)
        let key := PyVal.dict [("id", .dict [("S", .str item_id)])]
        emit (.dynamoGetItem TABLE_NAME key)
        let resp ← liftE (w.dynamoGetItem TABLE_NAME key)
        let retrieved ← liftE (resp.getE "Item" (.dict []))
        pure (create_response (.int 200)
          (.dict [("success", .bool true), ("item_id", .str item_id),
            ("retrieved_item", retrieved)]) PyVal.none)
      else if action = PyVal.str "get" then do
        let item_id ← liftE (body.getE "id" PyVal.none)
        if truthy item_id = false then
          pure (create_response (.int 400)
            (.dict [("success", .bool false), ("error", .str "id is required")]) PyVal.none)
        else do
          let key := PyVal.dict [("id", .dict [("S", item_id)])]
          emit (.dynamoGetItem TABLE_NAME key)
          let resp ← liftE (w.dynamoGetItem TABLE_NAME key)
          let item ← liftE (resp.getE "Item" PyVal.none)
          pure (create_response (.int 200)
            (.dict [("success", .bool true), ("item", item),
              ("found", .bool (item ≠ PyVal.none))]) PyVal.none)
      else if action = PyVal.str "put" then do
        let item_id ← liftE (body.getE "id" (.str w.uuid4))
        let message ← liftE (body.getE "message" (.str "Hello from ScyllaDB Lambda"))
        let item := PyVal.dict [("id", .dict [("S", item_id)]),
          ("timestamp", .dict [("N", .str (intStr w.now))]),
          ("message", .dict [("S", message)])]
        emit (.dynamoPutItem TABLE_NAME item)
        liftE (w.dynamoPutItem TABLE_NAME item)
        pure (create_response (.int 200)
          (.dict [("success", .bool true), ("item_id", item_id)]) PyVal.none)
      else if action = PyVal.str "update" then do
        let item_id ← liftE (body.getE "id" PyVal.none)
        if truthy item_id = false then
          pure (create_response (.int 400)
            (.dict [("success", .bool false), ("error", .str "id is required")]) PyVal.none)
        else do
          let new_message ← liftE (body.getE "message" (.str "Updated message"))
          let key := PyVal.dict [("id", .dict [("S", item_id)])]
          emit (.dynamoUpdateItem TABLE_NAME key new_message)
          liftE (w.dynamoUpdateItem TABLE_NAME key new_message)
          pure (create_response (.int 200)
            (.dict [("success", .bool true), ("item_id", item_id)]) PyVal.none)
      else if action = PyVal.str "delete" then do
        let item_id ← liftE (body.getE "id" PyVal.none)
        if truthy item_id = false then
          pure (create_response (.int 400)
            (.dict [("success", .bool false), ("error", .str "id is required")]) PyVal.none)
        else do
          let key := PyVal.dict [("id", .dict [("S", item_id)])]
          emit (.dynamoDeleteItem TABLE_NAME key)
          liftE (w.dynamoDeleteItem TABLE_NAME key)
          pure (create_response (.int 200)
            (.dict [("success", .bool true), ("item_id", item_id), ("deleted", .bool true)])
            PyVal.none)
      else
        pure (create_response (.int 400)
          (.dict [("success", .bool false),
            ("error", .str ("Unknown action: " ++ pyStr action))]) PyVal.none))
      (fun e => pure (create_response (.int 500)
        (.dict [("success", .bool false), ("error", .str e)]) PyVal.none))

end Dynamo

/-! ### `core/functions/python/integration/lambda_function.py` -/

namespace Integration

/-- `lambda_handler(event, context)` of the integration fixture.  Note the
blocking chain decodes the child payload with a bare `json.loads` — a
decode failure raises and nothing in this handler catches it. -/
def lambda_handler (w : AwsWorld) (envTraceId : Option String) (event : PyVal) :
    Eff PyVal := do
  match handle_ping event with
  | some r => pure r
  | Option.none => do
    let trace_id := envTraceId.getD "not-found"
    let body := parse_event_body event
    emit (.envelopeParse event)
    let next_target ← liftE (body.getE "next_target" PyVal.none)
    let is_async ← liftE (body.getE "async" (.bool false))
    let child_info ←
      if truthy next_target then do
        let invoke_type := if truthy is_async then "Event" else "RequestResponse"
        let payloadText := dumps (.dict [("message", .str "from-chain")])
        emit (.lambdaInvoke next_target invoke_type payloadText)
        let resp ← liftE (w.lambdaInvoke next_target invoke_type payloadText)
        if truthy is_async = false then
          match loads resp.payload with
          | some v => pure v
          | Option.none => raiseE "JSONDecodeError"
        else
          pure (PyVal.dict [("status", .str "async-started"),
            ("status_code", .int resp.statusCode)])
      else pure PyVal.none
    pure (create_response (.int 200)
      (.dict [("success", .bool true), ("trace_id", .str trace_id), ("child", child_info)])
      PyVal.none)

end Integration

/-! ### `image-java-python/images/lambda/python/lambda_function.py` -/

namespace Image

def DEFAULT_BUCKET : String := "e2e-test-bucket"
def DEFAULT_TARGET : String := "lambda-echo"

def copyKeys : List String := ["action", "message", "target", "bucket", "key", "content", "marker"]

def keyMem (k : String) (fs : List (String × PyVal)) : Bool := (lookup? fs k).isSome

/-- `_parse_payload(event)`: merge a dict-decoding body, then copy selected
string-typed top-level keys not already present, then a bool `async`. -/
def parsePayload (event : PyVal) : List (String × PyVal) :=
  match event with
  | .dict efs =>
    let base : List (String × PyVal) :=
      match lookup? efs "body" with
      | some (.str s) =>
        match loads s with
        | some (.dict pfs) => pfs
        | _ => []
      | some (.dict bfs) => bfs
      | _ => []
    let withCopied := copyKeys.foldl (fun acc k =>
      if keyMem k acc then acc
      else
        match lookup? efs k with
        | some (.str s) => acc ++ [(k, PyVal.str s)]
        | _ => acc) base
    if keyMem "async" withCopied then withCopied
    else
      match lookup? efs "async" with
      | some (.bool b) => withCopied ++ [("async", .bool b)]
      | _ => withCopied
  | _ => []

/-- `_extract_message(payload)`. -/
def extractMessage (payload : List (String × PyVal)) : String :=
  match lookup? payload "message" with
  | some (.str s) => if s = "" then "hello-image" else s
  | _ => "hello-image"

/-- `if not isinstance(target, str) or not target: target = DEFAULT_TARGET`. -/
def normTarget (t0 : PyVal) : PyVal :=
  match t0 with
  | .str s => if s = "" then PyVal.str DEFAULT_TARGET else PyVal.str s
  | _ => PyVal.str DEFAULT_TARGET

/-- `_invoke_lambda(payload)`: absent or invalid (non-string or empty)
target falls back to the default; `async is True` selects `Event` mode;
blocking mode decodes the child payload with raw-text fallback. -/
def invokeLambda (w : AwsWorld) (payload : List (String × PyVal)) : Eff PyVal := do
  let target := normTarget ((lookup? payload "target").getD (.str DEFAULT_TARGET))
  let invoke_type := if (lookup? payload "async").getD PyVal.none = PyVal.bool true
    then "Event" else "RequestResponse"
  let message := extractMessage payload
  let payloadText := dumps (.dict [("message", .str message)])
  emit (.lambdaInvoke target invoke_type payloadText)
  let resp ← liftE (w.lambdaInvoke target invoke_type payloadText)
  let base := [("target", target), ("invocation_type", PyVal.str invoke_type),
    ("status_code", PyVal.int resp.statusCode)]
  if invoke_type = "RequestResponse" then
    pure (PyVal.dict (base ++ [("child", childOf resp.payload)]))
  else
    pure (PyVal.dict base)

/-- `_s3_roundtrip(payload)` (`uuid.uuid4().hex[:8]` summarized by the
world's `uuid4`). -/
def s3Roundtrip (w : AwsWorld) (payload : List (String × PyVal)) : Eff PyVal := do
  let bucket0 := (lookup? payload "bucket").getD (.str DEFAULT_BUCKET)
  let bucket := match bucket0 with
    | .str s => if s = "" then PyVal.str DEFAULT_BUCKET else PyVal.str s
    | _ => PyVal.str DEFAULT_BUCKET
  let key0 := (lookup? payload "key").getD PyVal.none
  let key := match key0 with
    | .str s => if s = "" then PyVal.str ("image-" ++ w.uuid4 ++ ".txt") else PyVal.str s
    | _ => PyVal.str ("image-" ++ w.uuid4 ++ ".txt")
  let content0 := (lookup? payload "content").getD (.str "from-image-s3")
  let content := match content0 with
    | .str s => s
    | other => pyStr other
  swallow (do
    emit (.s3CreateBucket bucket)
    liftE (w.s3CreateBucket bucket))
  emit (.s3PutObject bucket key content)
  liftE (w.s3PutObject bucket key content)
  emit (.s3GetObject bucket key)
  let fetched ← liftE (w.s3GetObject bucket key)
  pure (PyVal.dict [("bucket", bucket), ("key", key), ("content", .str fetched)])

/-- `_write_cloudwatch_log(marker)`. -/
def writeCloudwatchLog (w : AwsWorld) (marker : String) : Eff PyVal := do
  let log_group := "/lambda/image-function"
  let log_stream := "image-stream-" ++ intStr w.now
  swallow (do
    emit (.logsCreateGroup log_group)
    liftE (w.logsCreateGroup log_group))
  swallow (do
    emit (.logsCreateStream log_group log_stream)
    liftE (w.logsCreateStream log_group log_stream))
  emit (.logsPutEvents log_group log_stream)
  liftE (w.logsPutEvents log_group log_stream)
  pure (PyVal.dict [("marker", .str marker), ("log_group", .str log_group),
    ("log_stream", .str log_stream)])

/-- `lambda_handler(event, _context)`: no ping filter; its catch boundary
returns a plain result mapping (no `statusCode`) with `success: False`, the
action, the handler tag and the error. -/
def lambda_handler (w : AwsWorld) (event : PyVal) : Eff PyVal := do
  let payload := parsePayload event
  let action0 := (lookup? payload "action").getD (.str "echo")
  let action := match action0 with
    | .str s => if s = "" then "echo" else s
    | _ => "echo"
  tryCatch
    (if action = "chain_invoke" then do
      let chain ← invokeLambda w payload
      pure (PyVal.dict [("success", .bool true), ("action", .str action),
        ("handler", .str "esb-e2e-lambda-python"), ("chain", chain)])
    else if action = "s3_roundtrip" then do
      let s3 ← s3Roundtrip w payload
      pure (PyVal.dict [("success", .bool true), ("action", .str action),
        ("handler", .str "esb-e2e-lambda-python"), ("s3", s3)])
    else if action = "test_cloudwatch" then do
      let marker := match lookup? payload "marker" with
        | some (.str s) => if s = "" then "image-cloudwatch-" ++ w.uuid4 else s
        | _ => "image-cloudwatch-" ++ w.uuid4
      let cw ← writeCloudwatchLog w marker
      pure (PyVal.dict [("success", .bool true), ("action", .str action),
        ("handler", .str "esb-e2e-lambda-python"), ("cloudwatch", cw)])
    else
      pure (PyVal.dict [("success", .bool true), ("action", .str action),
        ("handler", .str "esb-e2e-lambda-python"),
        ("message", .str (extractMessage payload))]))
    (fun exc => pure (PyVal.dict [("success", .bool false), ("action", .str action),
      ("handler", .str "esb-e2e-lambda-python"), ("error", .str exc)]))

end Image

/-! ### `core/functions/python/scaling/lambda_function.py` -/

namespace Scaling

/-- `lambda_handler(event, context)` of the scaling fixture: no ping filter;
its own body parse swallows decode errors into `{}`; `body.get` on a
non-dict body and `sleep_ms > 0` on a non-number both raise uncaught
(the sleep itself is a pure delay, not modelled). -/
def lambda_handler (event : PyVal) : Except PyErr PyVal :=
  let body : PyVal :=
    match event with
    | .dict efs =>
      match lookup? efs "body" with
      | some (.str s) =>
        match loads s with
        | some v => v
        | Option.none => .dict []
      | some b => b
      | Option.none => .dict []
    | _ => .dict []
  match body with
  | .dict bfs =>
    let sleep_ms := (lookup? bfs "sleep_ms").getD (.int 0)
    match sleep_ms with
    | .int n =>
      .ok (.dict [("statusCode", .int 200),
        ("headers", .dict [("Content-Type", .str "application/json")]),
        ("body", .str (dumps (.dict [("message", .str "scaling-test"), ("slept_ms", .int n)])))])
    | .bool b =>
      .ok (.dict [("statusCode", .int 200),
        ("headers", .dict [("Content-Type", .str "application/json")]),
        ("body", .str (dumps (.dict [("message", .str "scaling-test"), ("slept_ms", .bool b)])))])
    | _ => .error "TypeError"
  | _ => .error "AttributeError"

end Scaling

/-! ### `internal/infra/build/assets/python/trace_bridge.py` -/

namespace TraceBridge

/-- `context.client_context.custom`, modelled as an optional string-valued
mapping (a non-string `trace_id` would fail on the environment assignment
and is outside the model; an absent or `None`/falsy non-dict `custom` is
`Option.none`). -/
structure ClientContext where
  custom : Option (List (String × String))

/-- The handler `context` argument: `client_context` may be absent/`None`. -/
structure LambdaContext where
  client_context : Option ClientContext

def strLookup (fs : List (String × String)) (k : String) : Option String :=
  match fs with
  | [] => Option.none
  | (k', v) :: rest => if k' = k then some v else strLookup rest k

/-- Truthiness of `os.environ.get("_X_AMZN_TRACE_ID")`: unset or set to the
empty string is falsy. -/
def envTruthy : Option String → Bool
  | Option.none => false
  | some s => s ≠ ""

/-- `_set_trace_id_from_context(context)` acting on the `_X_AMZN_TRACE_ID`
environment state: publish `custom["trace_id"]` iff the guard
`not os.environ.get("_X_AMZN_TRACE_ID")` holds. -/
def set_trace_id_from_context (ctx : LambdaContext) (env : Option String) : Option String :=
  match ctx.client_context with
  | some cc =>
    match cc.custom with
    | some custom =>
      if custom ≠ [] then
        match strLookup custom "trace_id" with
        | some tid => if envTruthy env then env else some tid
        | Option.none => env
      else env
    | Option.none => env
  | Option.none => env

/-- `hydrate_trace_id(handler)`: publish the trace id from the context, then
delegate; the sync and async wrappers behave identically, so one model
covers both. -/
def hydrate_trace_id {α : Type} (handler : PyVal → LambdaContext → Option String → α)
    (event : PyVal) (ctx : LambdaContext) (env : Option String) : α :=
  handler event ctx (set_trace_id_from_context ctx env)

end TraceBridge

/-! ### Concrete worlds used by witnesses and counterexamples -/

instance {ε α : Type} [DecidableEq ε] [DecidableEq α] : DecidableEq (Except ε α) := fun a b =>
  match a, b with
  | .ok x, .ok y =>
      if h : x = y then isTrue (by rw [h]) else isFalse (fun he => by cases he; exact h rfl)
  | .error x, .error y =>
      if h : x = y then isTrue (by rw [h]) else isFalse (fun he => by cases he; exact h rfl)
  | .ok _, .error _ => isFalse (fun he => by cases he)
  | .error _, .ok _ => isFalse (fun he => by cases he)

/-- A world whose collaborators all succeed; the chained target answers
`'{"ok": true}'`. -/
def okWorld : AwsWorld where
  dynamoPutItem := fun _ _ => .ok ()
  dynamoGetItem := fun _ _ => .ok (.dict [])
  dynamoUpdateItem := fun _ _ _ => .ok ()
  dynamoDeleteItem := fun _ _ => .ok ()
  s3CreateBucket := fun _ => .ok ()
  s3PutObject := fun _ _ _ => .ok ()
  s3GetObject := fun _ _ => .ok "ok"
  lambdaInvoke := fun _ _ _ => .ok ⟨200, "\x7b\"ok\": true\x7d"⟩
  logsCreateGroup := fun _ => .ok ()
  logsCreateStream := fun _ _ => .ok ()
  logsPutEvents := fun _ _ => .ok ()
  envTableName := Option.none
  envBucket := Option.none
  uuid4 := "uuid-1"
  now := 0

/-- A world whose collaborators all raise with message `m`. -/
def failWorld (m : PyErr) : AwsWorld where
  dynamoPutItem := fun _ _ => .error m
  dynamoGetItem := fun _ _ => .error m
  dynamoUpdateItem := fun _ _ _ => .error m
  dynamoDeleteItem := fun _ _ => .error m
  s3CreateBucket := fun _ => .error m
  s3PutObject := fun _ _ _ => .error m
  s3GetObject := fun _ _ => .error m
  lambdaInvoke := fun _ _ _ => .error m
  logsCreateGroup := fun _ => .error m
  logsCreateStream := fun _ _ => .error m
  logsPutEvents := fun _ _ => .error m
  envTableName := Option.none
  envBucket := Option.none
  uuid4 := "uuid-1"
  now := 0

/-- A world whose chained target responds with the given status and raw
payload text. -/
def invokeWorld (sc : Int) (payload : String) : AwsWorld :=
  { okWorld with lambdaInvoke := fun _ _ _ => .ok ⟨sc, payload⟩ }

example : (Connectivity.lambda_handler okWorld (.dict [("ping", .bool true)])).run
    = (.ok (.dict [("statusCode", .int 200), ("body", .str "pong")]), []) := by decide
example : (Connectivity.lambda_handler okWorld (.dict [("action", .str "chain_invoke")])).run
    = (.ok (create_response (.int 200)
        (.dict [("success", .bool true), ("action", .str "chain_invoke"),
          ("child", .dict [("ok", .bool true)])]) PyVal.none),
      [.envelopeParse (.dict [("action", .str "chain_invoke")]),
        .lambdaInvoke (.str "lambda-echo") "RequestResponse" "\x7b\"message\": \"from-python\"\x7d"]) := by
  decide
example : (Dynamo.lambda_handler okWorld (.dict [("action", .str "update")])).run
    = (.ok (create_response (.int 400)
        (.dict [("success", .bool false), ("error", .str "id is required")]) PyVal.none),
      [.envelopeParse (.dict [("action", .str "update")])]) := by decide
example : Scaling.lambda_handler (.dict [("ping", .bool true)])
    = .ok (.dict [("statusCode", .int 200),
        ("headers", .dict [("Content-Type", .str "application/json")]),
        ("body", .str "\x7b\"message\": \"scaling-test\", \"slept_ms\": 0\x7d")]) := by decide
example : (Integration.lambda_handler (invokeWorld 200 "plain") Option.none
      (.dict [("next_target", .str "t")])).run.1 = .error "JSONDecodeError" := by decide

/-! ### Behaviour of `parse_event_body` (helper lemmas shared by claims) -/

theorem parse_event_body_nonDict : ∀ (e : PyVal), e.isObj = false →
    parse_event_body e = .dict [] := by
  intro e h
  cases e <;> first
    | rfl
    | simp [PyVal.isObj] at h

theorem parse_event_body_body_decodes {fs : List (String × PyVal)} {s : String} {v : PyVal}
    (hb : lookup? fs "body" = some (.str s)) (hl : loads s = some v) :
    parse_event_body (.dict fs) = v := by
  simp [parse_event_body, hb, hl]

theorem parse_event_body_body_undecodable {fs : List (String × PyVal)} {s : String}
    (hb : lookup? fs "body" = some (.str s)) (hl : loads s = Option.none) :
    parse_event_body (.dict fs) = .dict [] := by
  simp [parse_event_body, hb, hl]

theorem parse_event_body_structured_body {fs : List (String × PyVal)} {b : PyVal}
    (hb : lookup? fs "body" = some b) (hs : b.isStr = false) :
    parse_event_body (.dict fs) = b := by
  cases b with
  | str s => simp [PyVal.isStr] at hs
  | none => simp [parse_event_body, hb]
  | bool b => simp [parse_event_body, hb]
  | int n => simp [parse_event_body, hb]
  | list xs => simp [parse_event_body, hb]
  | dict fs2 => simp [parse_event_body, hb]

theorem parse_event_body_no_body {fs : List (String × PyVal)}
    (hb : lookup? fs "body" = Option.none) :
    parse_event_body (.dict fs) = .dict fs := by
  simp [parse_event_body, hb]

/-! ### Claims -/

/-- C2: `parseBody` is a left inverse of JSON encoding on proxy envelopes —
for an envelope whose `body` is the JSON encoding of an object `o`
(any object within the model: strings may hold quotes, backslashes,
control characters and non-ASCII text, all round-tripping through the
escape codec; `jsonOk` only keeps strings inside the basic multilingual
plane, the declared codec boundary, and object keys distinct, as Python
dicts necessarily are) it returns exactly `o`; for a string `body` that
does not parse as JSON it returns the empty mapping; for an envelope
without a `body` field it returns the envelope itself. -/
theorem C2_parse_event_body_roundtrip :
    (∀ (o : PyVal) (fs : List (String × PyVal)),
        jsonOk o = true → o.isObj = true →
        lookup? fs "body" = some (.str (dumps o)) →
        parse_event_body (.dict fs) = o)
  ∧ (∀ (fs : List (String × PyVal)) (s : String),
        lookup? fs "body" = some (.str s) → loads s = Option.none →
        parse_event_body (.dict fs) = .dict [])
  ∧ (∀ (fs : List (String × PyVal)),
        lookup? fs "body" = Option.none →
        parse_event_body (.dict fs) = .dict fs) := by
  refine ⟨?_, ?_, ?_⟩
  · intro o fs hok _ hb
    exact parse_event_body_body_decodes hb (loads_dumps hok)
  · intro fs s hb hl
    exact parse_event_body_body_undecodable hb hl
  · intro fs hb
    exact parse_event_body_no_body hb

/-- Witness for C2 at concrete inputs, including an object whose string
holds a quote, backslashes, a newline and a non-ASCII character. -/
theorem C2_witness :
    parse_event_body (.dict [("body", .str "\x7b\"ok\": true\x7d"), ("requestContext", .dict [])])
        = .dict [("ok", .bool true)]
  ∧ parse_event_body
        (.dict [("body", .str "\x7b\"msg\": \"a\\\"b\\\\c\\nd\\u00e9\"\x7d")])
        = .dict [("msg", .str "a\"b\\c\nd\u00e9")]
  ∧ parse_event_body (.dict [("body", .str "plain")]) = .dict []
  ∧ parse_event_body (.dict [("a", .int 1)]) = .dict [("a", .int 1)] :=
  ⟨C2_parse_event_body_roundtrip.1 (.dict [("ok", .bool true)])
      [("body", .str "\x7b\"ok\": true\x7d"), ("requestContext", .dict [])]
      (by decide) (by decide) (by decide),
    C2_parse_event_body_roundtrip.1 (.dict [("msg", .str "a\"b\\c\nd\u00e9")])
      [("body", .str "\x7b\"msg\": \"a\\\"b\\\\c\\nd\\u00e9\"\x7d")]
      (by decide) (by decide) (by decide),
    C2_parse_event_body_roundtrip.2.1 [("body", .str "plain")] "plain" (by decide) (by decide),
    C2_parse_event_body_roundtrip.2.2 [("a", .int 1)] (by decide)⟩

/-- C10: a non-mapping event (string, number, list, null) yields the empty
mapping — it is not treated as the RequestBody itself. -/
theorem C10_parse_event_body_nonmapping :
    ∀ (e : PyVal), e.isObj = false → parse_event_body e = .dict [] :=
  parse_event_body_nonDict

/-- Witness for C10 at concrete non-mapping inputs. -/
theorem C10_witness :
    parse_event_body (.str "direct") = .dict []
  ∧ parse_event_body (.list [.int 1]) = .dict []
  ∧ parse_event_body (.int 7) = .dict []
  ∧ parse_event_body PyVal.none = .dict [] :=
  ⟨C10_parse_event_body_nonmapping (.str "direct") (by decide),
    C10_parse_event_body_nonmapping (.list [.int 1]) (by decide),
    C10_parse_event_body_nonmapping (.int 7) (by decide),
    C10_parse_event_body_nonmapping PyVal.none (by decide)⟩

/-- C6 counterexample: a `body` that decodes to a JSON string makes
`parse_event_body` return a raw string — its result is not always a
structured mapping. -/
theorem C6_counterexample :
    parse_event_body (.dict [("body", .str "\"text\"")]) = .str "text"
  ∧ PyVal.isStr (parse_event_body (.dict [("body", .str "\"text\"")])) = true := by
  decide

/-- C6 (amended): `parse_event_body` is total (modelled as a plain function
returning for every input), and returns the empty mapping for non-mapping
events and undecodable string bodies; but its result is whatever the body
holds or decodes to, which may be a non-mapping — including a raw string. -/
theorem C6_parse_event_body_total_shape :
    (∀ (e : PyVal), e.isObj = false → parse_event_body e = .dict [])
  ∧ (∀ (fs : List (String × PyVal)) (s : String),
      lookup? fs "body" = some (.str s) → loads s = Option.none →
      parse_event_body (.dict fs) = .dict [])
  ∧ (∀ (fs : List (String × PyVal)) (s : String) (v : PyVal),
      lookup? fs "body" = some (.str s) → loads s = some v →
      parse_event_body (.dict fs) = v)
  ∧ (∀ (fs : List (String × PyVal)) (b : PyVal),
      lookup? fs "body" = some b → b.isStr = false →
      parse_event_body (.dict fs) = b) := by
  refine ⟨parse_event_body_nonDict, ?_, ?_, ?_⟩
  · intro fs s hb hl
    exact parse_event_body_body_undecodable hb hl
  · intro fs s v hb hl
    exact parse_event_body_body_decodes hb hl
  · intro fs b hb hs
    exact parse_event_body_structured_body hb hs

/-- Witness for the amended C6 at concrete inputs. -/
theorem C6_witness :
    parse_event_body (.int 3) = .dict []
  ∧ parse_event_body (.dict [("body", .str "not json")]) = .dict []
  ∧ parse_event_body (.dict [("body", .str "\"raw\"")]) = .str "raw"
  ∧ parse_event_body (.dict [("body", .list [.int 1])]) = .list [.int 1] :=
  ⟨C6_parse_event_body_total_shape.1 (.int 3) (by decide),
    C6_parse_event_body_total_shape.2.1 [("body", .str "not json")] "not json"
      (by decide) (by decide),
    C6_parse_event_body_total_shape.2.2.1 [("body", .str "\"raw\"")] "\"raw\"" (.str "raw")
      (by decide) (by decide),
    C6_parse_event_body_total_shape.2.2.2 [("body", .list [.int 1])] (.list [.int 1])
      (by decide) (by decide)⟩

/-- C7 counterexample: `create_response(200, None, None)` (the Python
defaults) keeps `body = None`, so the final envelope's `body` field is not
always a JSON-encoded string. -/
theorem C7_counterexample :
    create_response (.int 200) PyVal.none PyVal.none
      = .dict [("statusCode", .int 200),
          ("headers", .dict [("Content-Type", .str "application/json")]),
          ("body", PyVal.none)]
  ∧ PyVal.isStr ((create_response (.int 200) PyVal.none PyVal.none).get "body"
      (.str "absent")) = false := by
  decide

/-- C7 (amended): `create_response` defaults `statusCode` to 200 and headers
to `{Content-Type: application/json}`, JSON-encodes every body that is
neither a string nor `None`, and passes string bodies through; but a `None`
body (the default) stays `None` rather than being encoded.  Concretely,
`create_response(200, {a: 1})` carries `body == '{"a": 1}'`. -/
theorem C7_create_response_shape :
    (∀ (sc b h : PyVal), b ≠ PyVal.none → b.isStr = false →
      create_response sc b h
        = .dict [("statusCode", sc),
            ("headers", if h = PyVal.none
              then PyVal.dict [("Content-Type", .str "application/json")] else h),
            ("body", .str (dumps b))])
  ∧ (∀ (sc : PyVal) (s : String) (h : PyVal),
      create_response sc (.str s) h
        = .dict [("statusCode", sc),
            ("headers", if h = PyVal.none
              then PyVal.dict [("Content-Type", .str "application/json")] else h),
            ("body", .str s)])
  ∧ create_response (.int 200) (.dict [("a", .int 1)]) PyVal.none
      = .dict [("statusCode", .int 200),
          ("headers", .dict [("Content-Type", .str "application/json")]),
          ("body", .str "\x7b\"a\": 1\x7d")] := by
  refine ⟨?_, ?_, by decide⟩
  · intro sc b h hnn hns
    simp [create_response, hnn, hns]
  · intro sc s h
    simp [create_response, PyVal.isStr]

/-- Witness for the amended C7 at concrete inputs. -/
theorem C7_witness :
    create_response (.int 200) (.list [.int 2]) PyVal.none
      = .dict [("statusCode", .int 200),
          ("headers", .dict [("Content-Type", .str "application/json")]),
          ("body", .str "[2]")]
  ∧ create_response (.int 400) (.str "pong") (.dict [("X", .str "y")])
      = .dict [("statusCode", .int 400), ("headers", .dict [("X", .str "y")]),
          ("body", .str "pong")] :=
  ⟨by
    have h := C7_create_response_shape.1 (.int 200) (.list [.int 2]) PyVal.none
      (by decide) (by decide)
    simpa using h,
  by
    have h := C7_create_response_shape.2.1 (.int 400) "pong" (.dict [("X", .str "y")])
    simpa using h⟩

/-- A handler probe that reports the environment value it was called with,
used to witness that the trace bridge publishes before delegating. -/
def probeHandler : PyVal → TraceBridge.LambdaContext → Option String → PyVal :=
  fun _ _ env =>
    match env with
    | some s => .str s
    | Option.none => PyVal.none

/-- C4 counterexample: metadata with `trace_id = ""` publishes the empty
string, yet a second invocation with `trace_id = "xyz"` then overwrites the
published value — a published value is not always kept for the process
lifetime. -/
theorem C4_counterexample :
    TraceBridge.set_trace_id_from_context ⟨some ⟨some [("trace_id", "")]⟩⟩ Option.none
        = some ""
  ∧ TraceBridge.set_trace_id_from_context ⟨some ⟨some [("trace_id", "xyz")]⟩⟩ (some "")
        = some "xyz"
  ∧ (some "xyz" : Option String) ≠ some "" := by
  refine ⟨rfl, rfl, by decide⟩

/-- C4 (amended): with no published value and metadata carrying
`trace_id = "abc"`, the bridge publishes `"abc"` before the wrapped handler
runs (the handler observes it); once a non-empty value is published, later
invocations never change it; but the guard `not os.environ.get(...)` treats
a published empty string as unset, so an empty published value can be
overwritten. -/
theorem C4_trace_bridge_set_once :
    (∀ (h : PyVal → TraceBridge.LambdaContext → Option String → PyVal) (ev : PyVal),
      TraceBridge.hydrate_trace_id h ev ⟨some ⟨some [("trace_id", "abc")]⟩⟩ Option.none
        = h ev ⟨some ⟨some [("trace_id", "abc")]⟩⟩ (some "abc"))
  ∧ (∀ (ctx : TraceBridge.LambdaContext) (s : String), s ≠ "" →
      TraceBridge.set_trace_id_from_context ctx (some s) = some s) := by
  refine ⟨fun h ev => rfl, ?_⟩
  intro ctx s hs
  obtain ⟨cc⟩ := ctx
  cases cc with
  | none => rfl
  | some c =>
    obtain ⟨cu⟩ := c
    cases cu with
    | none => rfl
    | some custom =>
      simp only [TraceBridge.set_trace_id_from_context]
      by_cases hne : custom ≠ []
      · rw [if_pos hne]
        cases TraceBridge.strLookup custom "trace_id" with
        | none => rfl
        | some tid =>
            simp [TraceBridge.envTruthy, hs]
      · rw [if_neg hne]

/-- Witness for the amended C4 at concrete inputs. -/
theorem C4_witness :
    TraceBridge.hydrate_trace_id probeHandler (.dict [])
        ⟨some ⟨some [("trace_id", "abc")]⟩⟩ Option.none = .str "abc"
  ∧ TraceBridge.set_trace_id_from_context ⟨some ⟨some [("trace_id", "zzz")]⟩⟩ (some "abc")
        = some "abc" :=
  ⟨C4_trace_bridge_set_once.1 probeHandler (.dict []),
    C4_trace_bridge_set_once.2 ⟨some ⟨some [("trace_id", "zzz")]⟩⟩ "abc" (by decide)⟩

/-- Pong response of the Heartbeat Filter. -/
def pongResponse : PyVal := .dict [("statusCode", .int 200), ("body", .str "pong")]

/-- C3 counterexample: the scaling fixture never consults the Heartbeat
Filter — a structured envelope with truthy `ping` gets the ordinary scaling
response, not the canned pong. -/
theorem C3_counterexample :
    Scaling.lambda_handler (.dict [("ping", .bool true)])
      = .ok (.dict [("statusCode", .int 200),
          ("headers", .dict [("Content-Type", .str "application/json")]),
          ("body", .str "\x7b\"message\": \"scaling-test\", \"slept_ms\": 0\x7d")])
  ∧ Scaling.lambda_handler (.dict [("ping", .bool true)]) ≠ .ok pongResponse := by
  refine ⟨by decide, by decide⟩

/-- C3 (amended): the fixtures that install the Heartbeat Filter
(connectivity, dynamo, integration) answer every structured envelope with
truthy `ping` by exactly `{statusCode: 200, body: "pong"}`, before body
normalization and dispatch and with no collaborator or codec invocation
(empty effect trace); the scaling fixture, however, has no ping check and
processes a probe as an ordinary request. -/
theorem C3_ping_short_circuit :
    ∀ (w : AwsWorld) (env : Option String) (event : PyVal),
      event.isObj = true → truthy (event.get "ping" PyVal.none) = true →
      (Connectivity.lambda_handler w event).run = (.ok pongResponse, [])
        ∧ (Dynamo.lambda_handler w event).run = (.ok pongResponse, [])
        ∧ (Integration.lambda_handler w env event).run = (.ok pongResponse, []) := by
  intro w env event hobj hping
  have hp : handle_ping event = some pongResponse := by
    simp [handle_ping, hobj, hping, pongResponse]
  refine ⟨?_, ?_, ?_⟩
  · simp [Connectivity.lambda_handler, hp]
  · simp [Dynamo.lambda_handler, hp]
  · simp [Integration.lambda_handler, hp]

/-- Witness for the amended C3 at a concrete probe envelope. -/
theorem C3_witness :
    (Connectivity.lambda_handler okWorld (.dict [("ping", .int 1)])).run
        = (.ok pongResponse, [])
  ∧ (Dynamo.lambda_handler okWorld (.dict [("ping", .int 1)])).run
        = (.ok pongResponse, [])
  ∧ (Integration.lambda_handler okWorld Option.none (.dict [("ping", .int 1)])).run
        = (.ok pongResponse, []) :=
  C3_ping_short_circuit okWorld Option.none (.dict [("ping", .int 1)])
    (by decide) (by decide)

/-- C9: an update- or delete-style request whose `id` is missing (or falsy)
yields a 400 response and the storage side effect is never attempted — the
effect trace holds only the envelope parse, for every world and event. -/
theorem C9_dynamo_missing_id_400 :
    ∀ (w : AwsWorld) (event : PyVal),
      truthy (event.get "ping" PyVal.none) = false →
      (parse_event_body event).isObj = true →
      ((parse_event_body event).get "action" (.str "put_get") = .str "update"
        ∨ (parse_event_body event).get "action" (.str "put_get") = .str "delete") →
      truthy ((parse_event_body event).get "id" PyVal.none) = false →
      (Dynamo.lambda_handler w event).run
        = (.ok (create_response (.int 400)
            (.dict [("success", .bool false), ("error", .str "id is required")]) PyVal.none),
          [.envelopeParse event]) := by
  intro w event hping hobj hact hid
  have hp : handle_ping event = Option.none := by
    simp [handle_ping, hping]
  have hget := getE_obj hobj
  rcases hact with hact | hact
  · simp [Dynamo.lambda_handler, hp, hget, hact, hid]
  · simp [Dynamo.lambda_handler, hp, hget, hact, hid]

/-- Witness for C9 at a concrete update request without `id`. -/
theorem C9_witness :
    (Dynamo.lambda_handler okWorld (.dict [("action", .str "update")])).run
      = (.ok (create_response (.int 400)
          (.dict [("success", .bool false), ("error", .str "id is required")]) PyVal.none),
        [.envelopeParse (.dict [("action", .str "update")])]) :=
  C9_dynamo_missing_id_400 okWorld (.dict [("action", .str "update")])
    (by decide) (by decide) (Or.inl (by decide)) (by decide)

/-- The function names a trace passed to the invoke transport. -/
def invokeTargets (tr : List Effect) : List PyVal :=
  tr.filterMap fun e =>
    match e with
    | .lambdaInvoke t _ _ => some t
    | _ => Option.none

/-- Is the value a non-empty string (a valid target name)? -/
def isNonemptyStr : PyVal → Bool
  | .str s => s ≠ ""
  | _ => false

/-- C8 counterexample: the connectivity chain invoker does not validate a
present `target` — an empty-string target is passed to the transport as-is
instead of falling back to the default. -/
theorem C8_counterexample :
    invokeTargets
        ((Connectivity.handle_chain_invoke okWorld (.dict [("target", .str "")])).run.2)
      = [.str ""]
  ∧ PyVal.str "" ≠ .str Connectivity.DEFAULT_LAMBDA_TARGET
  ∧ isNonemptyStr (.str "") = false := by
  refine ⟨by decide, by decide, by decide⟩

/-- C8 (amended): the image fixture's chain invoker falls back to the
default target whenever `target` is absent or not a non-empty string; the
connectivity fixture falls back only when the `target` key is absent, and
passes any present value — even an empty or non-string one — through to
the transport. -/
theorem C8_target_fallback :
    (∀ (w : AwsWorld) (payload : List (String × PyVal)),
      isNonemptyStr ((lookup? payload "target").getD PyVal.none) = false →
      invokeTargets ((Image.invokeLambda w payload).run.2)
        = [.str Image.DEFAULT_TARGET])
  ∧ (∀ (w : AwsWorld) (fs : List (String × PyVal)),
      lookup? fs "target" = Option.none →
      invokeTargets ((Connectivity.handle_chain_invoke w (.dict fs)).run.2)
        = [.str Connectivity.DEFAULT_LAMBDA_TARGET])
  ∧ (∀ (w : AwsWorld) (fs : List (String × PyVal)) (v : PyVal),
      lookup? fs "target" = some v →
      invokeTargets ((Connectivity.handle_chain_invoke w (.dict fs)).run.2) = [v]) := by
  refine ⟨?_, ?_, ?_⟩
  · intro w payload hbad
    have htgt : Image.normTarget ((lookup? payload "target").getD (.str Image.DEFAULT_TARGET))
        = .str Image.DEFAULT_TARGET := by
      cases hlt : lookup? payload "target" with
      | none => rfl
      | some t =>
          rw [hlt] at hbad
          cases t with
          | str s =>
              have hs : s = "" := by
                simp [isNonemptyStr] at hbad
                exact hbad
              subst hs
              rfl
          | none => rfl
          | bool b => rfl
          | int n => rfl
          | list xs => rfl
          | dict fs => rfl
    simp [Image.invokeLambda, htgt, invokeTargets]
    split
    · rename_i a tr' heq
      injection heq with h1 h2
      subst h2
      split <;> simp
    · rename_i e tr' heq
      injection heq with h1 h2
      subst h2
      simp
  · intro w fs hlt
    simp [Connectivity.handle_chain_invoke, PyVal.getE, hlt, invokeTargets]
    split
    · rename_i a tr' heq
      injection heq with h1 h2
      subst h2
      simp
    · rename_i e tr' heq
      injection heq with h1 h2
      subst h2
      simp
  · intro w fs v hlt
    simp [Connectivity.handle_chain_invoke, PyVal.getE, hlt, invokeTargets]
    split
    · rename_i a tr' heq
      injection heq with h1 h2
      subst h2
      simp
    · rename_i e tr' heq
      injection heq with h1 h2
      subst h2
      simp

/-- Witness for the amended C8 at concrete inputs. -/
theorem C8_witness :
    invokeTargets ((Image.invokeLambda okWorld [("target", .int 5)]).run.2)
        = [.str Image.DEFAULT_TARGET]
  ∧ invokeTargets ((Connectivity.handle_chain_invoke okWorld (.dict [])).run.2)
        = [.str Connectivity.DEFAULT_LAMBDA_TARGET]
  ∧ invokeTargets ((Connectivity.handle_chain_invoke okWorld
        (.dict [("target", .int 5)])).run.2) = [.int 5] :=
  ⟨C8_target_fallback.1 okWorld [("target", .int 5)] (by decide),
    C8_target_fallback.2.1 okWorld [] (by decide),
    C8_target_fallback.2.2 okWorld [("target", .int 5)] (.int 5) (by decide)⟩

/-- C1 counterexample: the integration fixture's blocking chain decodes the
child payload with a bare `json.loads` — against a target returning the
non-JSON text `"plain"` the decode failure surfaces as an uncaught error
instead of a raw-text `child`. -/
theorem C1_counterexample :
    (Integration.lambda_handler (invokeWorld 200 "plain") Option.none
        (.dict [("next_target", .str "t")])).run.1
      = .error "JSONDecodeError" := by
  decide

/-- C1 (amended): the connectivity and image chain invokers read the raw
blocking response and set `child` to the decoded JSON value, falling back
to the undecoded raw text when decoding fails, never an error; but the
integration fixture's blocking chain decodes strictly, and a non-JSON
payload raises an error that propagates out of its handler. -/
theorem C1_chain_decode :
    (∀ (w : AwsWorld) (body : PyVal) (raw : String) (sc : Int),
      body.isObj = true →
      (∀ fn ty p, w.lambdaInvoke fn ty p = .ok ⟨sc, raw⟩) →
      (Connectivity.handle_chain_invoke w body).run.1
        = .ok (create_response (.int 200)
            (.dict [("success", .bool true), ("action", .str "chain_invoke"),
              ("child", childOf raw)]) PyVal.none))
  ∧ (∀ (w : AwsWorld) (payload : List (String × PyVal)) (raw : String) (sc : Int),
      (lookup? payload "async").getD PyVal.none ≠ PyVal.bool true →
      (∀ fn ty p, w.lambdaInvoke fn ty p = .ok ⟨sc, raw⟩) →
      (Image.invokeLambda w payload).run.1
        = .ok (.dict [("target",
              Image.normTarget ((lookup? payload "target").getD (.str Image.DEFAULT_TARGET))),
            ("invocation_type", .str "RequestResponse"),
            ("status_code", .int sc), ("child", childOf raw)]))
  ∧ (∀ (w : AwsWorld) (env : Option String) (event : PyVal) (raw : String) (sc : Int),
      truthy (event.get "ping" PyVal.none) = false →
      (parse_event_body event).isObj = true →
      truthy ((parse_event_body event).get "next_target" PyVal.none) = true →
      truthy ((parse_event_body event).get "async" (.bool false)) = false →
      (∀ fn ty p, w.lambdaInvoke fn ty p = .ok ⟨sc, raw⟩) →
      loads raw = Option.none →
      (Integration.lambda_handler w env event).run.1 = .error "JSONDecodeError") := by
  refine ⟨?_, ?_, ?_⟩
  · intro w body raw sc hobj hw
    have hget := getE_obj hobj
    simp [Connectivity.handle_chain_invoke, hget, hw]
  · intro w payload raw sc hasync hw
    simp [Image.invokeLambda, hasync, hw]
  · intro w env event raw sc hping hobj hnt hasync hw hload
    have hp : handle_ping event = Option.none := by
      simp [handle_ping, hping]
    have hget := getE_obj hobj
    simp [Integration.lambda_handler, hp, hget, hnt, hasync, hw, hload]

/-- Witness for the amended C1: decoded child for a JSON payload, raw-text
child for non-JSON, and the integration error, at concrete inputs. -/
theorem C1_witness :
    (Connectivity.handle_chain_invoke (invokeWorld 200 "\x7b\"ok\": true\x7d") (.dict [])).run.1
        = .ok (create_response (.int 200)
            (.dict [("success", .bool true), ("action", .str "chain_invoke"),
              ("child", .dict [("ok", .bool true)])]) PyVal.none)
  ∧ (Connectivity.handle_chain_invoke (invokeWorld 200 "plain") (.dict [])).run.1
        = .ok (create_response (.int 200)
            (.dict [("success", .bool true), ("action", .str "chain_invoke"),
              ("child", .str "plain")]) PyVal.none)
  ∧ (Image.invokeLambda (invokeWorld 200 "plain") []).run.1
        = .ok (.dict [("target", .str Image.DEFAULT_TARGET),
            ("invocation_type", .str "RequestResponse"),
            ("status_code", .int 200), ("child", .str "plain")])
  ∧ (Integration.lambda_handler (invokeWorld 200 "plain") Option.none
        (.dict [("next_target", .str "t")])).run.1 = .error "JSONDecodeError" :=
  ⟨by
    have h := C1_chain_decode.1 (invokeWorld 200 "\x7b\"ok\": true\x7d") (.dict []) "\x7b\"ok\": true\x7d"
      200 (by decide) (fun fn ty p => rfl)
    simpa [childOf] using h,
  by
    have h := C1_chain_decode.1 (invokeWorld 200 "plain") (.dict []) "plain" 200
      (by decide) (fun fn ty p => rfl)
    simpa [childOf] using h,
  by
    have h := C1_chain_decode.2.1 (invokeWorld 200 "plain") [] "plain" 200
      (by decide) (fun fn ty p => rfl)
    simpa [childOf, Image.normTarget, lookup?] using h,
  C1_chain_decode.2.2 (invokeWorld 200 "plain") Option.none (.dict [("next_target", .str "t")])
    "plain" 200 (by decide) (by decide) (by decide) (by decide) (fun fn ty p => rfl)
    (by decide)⟩

/-- C5 counterexample: the DynamoDB fixture's catch-all converts a
collaborator failure into a 500 response whose body has `success: false`
and the error message but NOT the action name — the decoded body has no
`action` key. -/
theorem C5_counterexample :
    (Dynamo.lambda_handler (failWorld "boom")
        (.dict [("action", .str "update"), ("id", .str "x")])).run.1
      = .ok (.dict [("statusCode", .int 500),
          ("headers", .dict [("Content-Type", .str "application/json")]),
          ("body", .str "\x7b\"success\": false, \"error\": \"boom\"\x7d")])
  ∧ loads "\x7b\"success\": false, \"error\": \"boom\"\x7d"
      = some (.dict [("success", .bool false), ("error", .str "boom")])
  ∧ lookup? [("success", .bool false), ("error", .str "boom")] "action" = Option.none := by
  refine ⟨by decide, by decide, by decide⟩

/-- C5 (amended): no uncaught failure escapes any of the three dispatchers
(for connectivity and dynamo whenever the parsed body is a mapping; for the
image handler unconditionally), but the failure response shape differs:
connectivity's catch-all yields a 500 response with success, action and
error; dynamo's yields a 500 response with success and error but no action
name; the image handler's boundary yields a plain result mapping with
success, action, handler and error but no statusCode at all. -/
theorem C5_catch_all_boundary :
    (∀ (w : AwsWorld) (event : PyVal), (parse_event_body event).isObj = true →
      (Connectivity.lambda_handler w event).run.1.isOk = true)
  ∧ (∀ (w : AwsWorld) (event : PyVal), (parse_event_body event).isObj = true →
      (Dynamo.lambda_handler w event).run.1.isOk = true)
  ∧ (∀ (w : AwsWorld) (event : PyVal),
      (Image.lambda_handler w event).run.1.isOk = true)
  ∧ (∀ (w : AwsWorld) (event : PyVal) (m : PyErr),
      truthy (event.get "ping" PyVal.none) = false →
      (parse_event_body event).isObj = true →
      (parse_event_body event).get "action" (.str "echo") = .str "dynamodb_put" →
      (∀ t i, w.dynamoPutItem t i = .error m) →
      (Connectivity.lambda_handler w event).run.1
        = .ok (create_response (.int 500)
            (.dict [("success", .bool false), ("action", .str "dynamodb_put"),
              ("error", .str m)]) PyVal.none))
  ∧ (∀ (w : AwsWorld) (event : PyVal) (m : PyErr),
      truthy (event.get "ping" PyVal.none) = false →
      (parse_event_body event).isObj = true →
      (parse_event_body event).get "action" (.str "put_get") = .str "update" →
      truthy ((parse_event_body event).get "id" PyVal.none) = true →
      (∀ t k nm, w.dynamoUpdateItem t k nm = .error m) →
      (Dynamo.lambda_handler w event).run.1
        = .ok (create_response (.int 500)
            (.dict [("success", .bool false), ("error", .str m)]) PyVal.none))
  ∧ (∀ (w : AwsWorld) (event : PyVal) (m : PyErr),
      lookup? (Image.parsePayload event) "action" = some (.str "chain_invoke") →
      (∀ fn ty p, w.lambdaInvoke fn ty p = .error m) →
      (Image.lambda_handler w event).run.1
        = .ok (.dict [("success", .bool false), ("action", .str "chain_invoke"),
            ("handler", .str "esb-e2e-lambda-python"), ("error", .str m)])
        ∧ (PyVal.dict [("success", .bool false), ("action", .str "chain_invoke"),
            ("handler", .str "esb-e2e-lambda-python"), ("error", .str m)]).get
            "statusCode" (.str "absent") = .str "absent") := by
  refine ⟨?_, ?_, ?_, ?_, ?_, ?_⟩
  · intro w event hobj
    cases hping : handle_ping event with
    | some r => simp [Connectivity.lambda_handler, hping, Except.isOk, Except.toBool]
    | none =>
        have hget := getE_obj hobj
        simp [Connectivity.lambda_handler, hping, hget]
        split <;> simp [Except.isOk, Except.toBool]
  · intro w event hobj
    cases hping : handle_ping event with
    | some r => simp [Dynamo.lambda_handler, hping, Except.isOk, Except.toBool]
    | none =>
        have hget := getE_obj hobj
        simp [Dynamo.lambda_handler, hping, hget]
        split <;> simp [Except.isOk, Except.toBool]
  · intro w event
    simp [Image.lambda_handler]
    split <;> simp [Except.isOk, Except.toBool]
  · intro w event m hping hobj hact hw
    have hp : handle_ping event = Option.none := by
      simp [handle_ping, hping]
    have hget := getE_obj hobj
    simp [Connectivity.lambda_handler, hp, hget, hact, Connectivity.handle_dynamodb_put, hw]
  · intro w event m hping hobj hact hid hw
    have hp : handle_ping event = Option.none := by
      simp [handle_ping, hping]
    have hget := getE_obj hobj
    simp [Dynamo.lambda_handler, hp, hget, hact, hid, hw]
  · intro w event m hact hw
    refine ⟨?_, by simp [PyVal.get, lookup?]⟩
    simp [Image.lambda_handler, hact, Image.invokeLambda, hw]

/-- Witness for the amended C5 at concrete worlds and events. -/
theorem C5_witness :
    (Connectivity.lambda_handler okWorld (.dict [("x", .int 1)])).run.1.isOk = true
  ∧ (Dynamo.lambda_handler okWorld (.dict [("x", .int 1)])).run.1.isOk = true
  ∧ (Image.lambda_handler okWorld (.int 0)).run.1.isOk = true
  ∧ (Connectivity.lambda_handler (failWorld "boom")
        (.dict [("action", .str "dynamodb_put")])).run.1
      = .ok (create_response (.int 500)
          (.dict [("success", .bool false), ("action", .str "dynamodb_put"),
            ("error", .str "boom")]) PyVal.none)
  ∧ (Dynamo.lambda_handler (failWorld "boom")
        (.dict [("action", .str "update"), ("id", .str "x")])).run.1
      = .ok (create_response (.int 500)
          (.dict [("success", .bool false), ("error", .str "boom")]) PyVal.none)
  ∧ (Image.lambda_handler (failWorld "boom") (.dict [("action", .str "chain_invoke")])).run.1
      = .ok (.dict [("success", .bool false), ("action", .str "chain_invoke"),
          ("handler", .str "esb-e2e-lambda-python"), ("error", .str "boom")]) :=
  ⟨C5_catch_all_boundary.1 okWorld (.dict [("x", .int 1)]) (by decide),
    C5_catch_all_boundary.2.1 okWorld (.dict [("x", .int 1)]) (by decide),
    C5_catch_all_boundary.2.2.1 okWorld (.int 0),
    C5_catch_all_boundary.2.2.2.1 (failWorld "boom") (.dict [("action", .str "dynamodb_put")])
      "boom" (by decide) (by decide) (by decide) (fun t i => rfl),
    C5_catch_all_boundary.2.2.2.2.1 (failWorld "boom")
      (.dict [("action", .str "update"), ("id", .str "x")]) "boom"
      (by decide) (by decide) (by decide) (by decide) (fun t k nm => rfl),
    (C5_catch_all_boundary.2.2.2.2.2 (failWorld "boom")
      (.dict [("action", .str "chain_invoke")]) "boom" (by decide) (fun fn ty p => rfl)).1⟩

end ESB
